import Mathlib

/-!
# Verification of the LightSail Glasses LED firmware (`LSG_Version_3/src/main.cpp`)

Shallow embedding of the ESP32 firmware driving two 48-pixel LED rings
(96 pixels total), with 27 animation modes, a web `/set` endpoint and four
buttons.  Machine integers are modelled as `Nat` (for the `uint8_t`/`uint16_t`
counters, reduced `% 256` / `% 65536` at every update, exactly where the C
code truncates) and as `Int` (for C `int` variables).  Colors are tracked
symbolically as assigned by the code: a `CRGB` constant or literal is an
`rgb` triple, a `CHSV(h,s,v)` assignment keeps its hue/sat/val components
(the claims under verification concern assigned hues and the two wipe
colors, never the RGB rendering of an HSV value).
-/

namespace LSG

/-- A pixel color as assigned by the firmware: either an RGB triple
(`CRGB` constants / literals) or an HSV triple (`CHSV(h,s,v)` assignments,
kept symbolically with their components). -/
inductive Color where
  | rgb (r g b : Nat)
  | hsv (h s v : Nat)
deriving DecidableEq, Repr

/-- `CRGB::Black`. -/
def black : Color := .rgb 0 0 0
/-- `CRGB::White`. -/
def white : Color := .rgb 255 255 255
/-- `CRGB::Blue`. -/
def blue : Color := .rgb 0 0 255
/-- `CRGB::Red`. -/
def red : Color := .rgb 255 0 0

/-- C conversion of an `int` value to `uint8_t`: reduction modulo 256
(well-defined in C for any int value). -/
def toU8 (i : Int) : Nat := (i.emod 256).toNat

/-- The shared configuration written by the web endpoint and the buttons:
`volatile int currentMode` (line 24) and `volatile int ringBrightness`
(line 26) of `main.cpp`. -/
structure Config where
  currentMode : Int
  ringBrightness : Int
deriving DecidableEq, Repr

/-- Initial configuration: `currentMode = 0`, `ringBrightness = 50`
(lines 24, 26). -/
def cfg0 : Config := { currentMode := 0, ringBrightness := 50 }

/-- `const int numModes = 27` (line 25). -/
def numModes : Int := 27

/-- `handleSet` (lines 103-119): the `/set` web endpoint.  Each of the two
optional integer arguments is validated independently; an in-range `mode`
(`0 <= mode < numModes`) is stored, an in-range `brightness`
(`0 <= brightness <= 255`) is stored, anything else is silently ignored. -/
def handleSet (modeArg brightArg : Option Int) (c : Config) : Config :=
  let c1 : Config :=
    match modeArg with
    | some modeVal =>
        if 0 ≤ modeVal ∧ modeVal < numModes then { c with currentMode := modeVal } else c
    | none => c
  match brightArg with
  | some brightVal =>
      if 0 ≤ brightVal ∧ brightVal ≤ 255 then { c1 with ringBrightness := brightVal } else c1
  | none => c1

/-- Button "increment mode" (lines 798-803): `currentMode = (currentMode + 1) % numModes`.
In every reachable state `currentMode + 1 > 0`, where the C `%` agrees with
`Int.emod`. -/
def modeInc (c : Config) : Config :=
  { c with currentMode := (c.currentMode + 1) % numModes }

/-- Button "decrement mode" (lines 805-812): `currentMode = currentMode - 1;
if (currentMode < 0) currentMode = numModes - 1`. -/
def modeDec (c : Config) : Config :=
  let m := c.currentMode - 1
  { c with currentMode := if m < 0 then numModes - 1 else m }

/-- Button "increase brightness" (lines 814-822): `ringBrightness += 10;
if (ringBrightness > 255) ringBrightness = 255`. -/
def brightInc (c : Config) : Config :=
  let b := c.ringBrightness + 10
  { c with ringBrightness := if b > 255 then 255 else b }

/-- Button "decrease brightness" (lines 824-832): `ringBrightness -= 10;
if (ringBrightness < 0) ringBrightness = 0`. -/
def brightDec (c : Config) : Config :=
  let b := c.ringBrightness - 10
  { c with ringBrightness := if b < 0 then 0 else b }

/-!
## The exact-rainbow hue distribution (`fill_ring_with_exact_rainbow`, lines 63-79)

The C function runs IEEE-754 single-precision arithmetic, but every value it
manipulates is exactly representable, so the computation is exact integer
arithmetic scaled by `2^21`:
* `exactStep = 256.0 / 48` rounds (double then float) to `11184811 * 2^-21`;
* `fractional = exactStep - 5.0` is computed exactly as `699051 * 2^-21`
  (both operands and the result fit in a 24-bit significand);
* `hue` starts at an integer `<= 255` and only ever gains `+5` or `+6`, so it
  stays an exact integer `< 2^24`;
* `error` stays in `[0, 1.0000005)`, i.e. a multiple of `2^-21` with numerator
  `< 2^22`, and each `+= fractional` / `-= 1.0` stays exact in 24 bits.
So the loop is faithfully embedded with `err` the numerator of `error`
scaled by `2^21` and `699051 >= 2^21` threshold checks.
-/

/-- One pass of the `fill_ring_with_exact_rainbow` loop (lines 70-78),
emitting the `(i, (uint8_t)hue)` pairs in loop order: pixel index and the
hue stored by `ring[i] = CHSV((uint8_t)hue, 255, 255)`.  `hue` is the exact
integer value of the C float `hue`, `err` the exact numerator of the C float
`error` scaled by `2^21` (see the module comment above); `fuel` is the number
of remaining iterations. -/
def rainbowPairs (i hue err : Nat) : Nat → List (Nat × Nat)
  | 0 => []
  | fuel + 1 =>
      (i, hue % 256) ::
        (let e := err + 699051
         if 2097152 ≤ e then rainbowPairs (i + 1) (hue + 5 + 1) (e - 2097152) fuel
         else rainbowPairs (i + 1) (hue + 5) e fuel)

/-- The 48 hues assigned by `fill_ring_with_exact_rainbow(ring, 48, startHue)`
to pixels `ring[0] .. ring[47]`, in order. -/
def rainbowHues (startHue : Nat) : List Nat :=
  (rainbowPairs 0 startHue 0 48).map (·.2)

end LSG

namespace LSG

theorem rainbowPairs_length (i hue err fuel : Nat) :
    (rainbowPairs i hue err fuel).length = fuel := by
  induction fuel generalizing i hue err with
  | zero => rfl
  | succ n ih =>
      unfold rainbowPairs
      dsimp only
      split <;> simp [ih]

theorem rainbowHues_length (s : Nat) : (rainbowHues s).length = 48 := by
  simp [rainbowHues, rainbowPairs_length]

/-- Shifting the starting hue by `d` shifts every emitted hue by `d`
(modulo 256); the error accumulator, and hence the positions of the extra
`+1` increments, are independent of the starting hue. -/
theorem rainbowPairs_shift (fuel : Nat) : ∀ i hue err d,
    rainbowPairs i (hue + d) err fuel
      = (rainbowPairs i hue err fuel).map (fun p => (p.1, (p.2 + d) % 256)) := by
  induction fuel with
  | zero => intro i hue err d; rfl
  | succ n ih =>
      intro i hue err d
      unfold rainbowPairs
      dsimp only
      split
      · have h1 : hue + d + 5 + 1 = hue + 5 + 1 + d := by omega
        rw [List.map_cons, h1, ih]
        have h2 : (hue + d) % 256 = (hue % 256 + d) % 256 := by omega
        rw [h2]
      · have h1 : hue + d + 5 = hue + 5 + d := by omega
        rw [List.map_cons, h1, ih]
        have h2 : (hue + d) % 256 = (hue % 256 + d) % 256 := by omega
        rw [h2]

/-- The hue list for starting hue `s` is the offset list `rainbowHues 0`
shifted by `s` modulo 256. -/
theorem rainbowHues_shift (s : Nat) :
    rainbowHues s = (rainbowHues 0).map (fun d => (d + s) % 256) := by
  have h : rainbowPairs 0 s 0 48 = rainbowPairs 0 (0 + s) 0 48 := by rw [Nat.zero_add]
  simp only [rainbowHues, h, rainbowPairs_shift, List.map_map]
  rfl

/-- C2: for every starting hue `s`, `fill_ring_with_exact_rainbow` with
ringSize 48 assigns pixel `i` the hue `(s + d_i) % 256` where the offsets
`d_i = rainbowHues 0` start at 0, are strictly increasing, stay `<= 250 < 256`
(so the 48 hues are strictly increasing modulo 256), and advance by the base
step 5 with one extra `+1` exactly on every third pixel (`i % 3 = 2`, where
the accumulated fractional error first reaches 1.0), so every single-step
gap is 5 or 6, in particular at most 6. -/
theorem rainbow_hue_distribution (s : Nat) :
    rainbowHues s = (rainbowHues 0).map (fun d => (d + s) % 256) ∧
    (rainbowHues 0).length = 48 ∧
    (rainbowHues 0).getD 0 0 = 0 ∧
    (∀ i, i < 47 →
      ((rainbowHues 0).getD (i + 1) 0 = (rainbowHues 0).getD i 0 + 5 ∨
       (rainbowHues 0).getD (i + 1) 0 = (rainbowHues 0).getD i 0 + 6) ∧
      ((rainbowHues 0).getD (i + 1) 0 = (rainbowHues 0).getD i 0 + 6 ↔ i % 3 = 2) ∧
      (rainbowHues 0).getD i 0 < (rainbowHues 0).getD (i + 1) 0) ∧
    (∀ i, i < 48 → (rainbowHues 0).getD i 0 ≤ 250) :=
  ⟨rainbowHues_shift s, rainbowHues_length 0, by decide, by decide, by decide⟩

/-- Witness for `rainbow_hue_distribution` at starting hue 0 and the first
pixel gap. -/
theorem rainbow_hue_distribution_witness :
    (rainbowHues 0).getD 1 0 = (rainbowHues 0).getD 0 0 + 5 ∨
    (rainbowHues 0).getD 1 0 = (rainbowHues 0).getD 0 0 + 6 :=
  ((rainbow_hue_distribution 0).2.2.2.1 0 (by decide)).1

/-- C3 counterexample: the claim says `setBrightness(300)` clamps to
`min 255 (max 0 300) = 255`; the code (lines 110-116) drops the out-of-range
request instead, leaving the initial brightness 50 in place. -/
theorem handleSet_brightness_not_clamped :
    (handleSet none (some 300) cfg0).ringBrightness ≠ min 255 (max 0 300) := by
  decide

/-- C3 amended: the network brightness setter does not clamp; it stores an
in-range request (`0 <= b <= 255`) and silently drops an out-of-range one,
leaving the stored brightness unchanged: `setBrightness(300)` and
`setBrightness(-5)` both leave the initial brightness at 50. -/
theorem handleSet_brightness_dropped :
    (∀ b c, (handleSet none (some b) c).ringBrightness =
        if 0 ≤ b ∧ b ≤ 255 then b else c.ringBrightness) ∧
    (∀ b c, (handleSet none (some b) c).currentMode = c.currentMode) ∧
    (handleSet none (some 300) cfg0).ringBrightness = 50 ∧
    (handleSet none (some (-5)) cfg0).ringBrightness = 50 := by
  refine ⟨fun b c => ?_, fun b c => ?_, by decide, by decide⟩ <;>
    · simp only [handleSet]
      split <;> rfl

/-- C4: `handleSet` validates its two optional fields independently: the
mode field is applied iff it is present and in `[0, 27)`, the brightness
field iff it is present and in `[0, 255]`; an absent or out-of-range field
leaves the corresponding stored value unchanged, and does not affect whether
the other field is applied. -/
theorem handleSet_fields_independent (ma mb : Option Int) (c : Config) :
    (handleSet ma mb c).currentMode =
      (match ma with
       | some m => if 0 ≤ m ∧ m < 27 then m else c.currentMode
       | none => c.currentMode) ∧
    (handleSet ma mb c).ringBrightness =
      (match mb with
       | some b => if 0 ≤ b ∧ b ≤ 255 then b else c.ringBrightness
       | none => c.ringBrightness) := by
  cases ma <;> cases mb <;>
    · simp only [handleSet, numModes]
      constructor <;> (try split) <;> (try split) <;> (first | rfl | trivial)

/-- C6: button mode adjustment wraps circularly over the 27 modes
(increment is `(m + 1) % 27`, so mode 26 wraps to 0; decrement from mode 0
wraps to 26) and button brightness adjustment steps by 10 clamped to at
most 255 (increment) and at least 0 (decrement). -/
theorem buttons_wrap_and_clamp :
    (∀ c, (modeInc c).currentMode = (c.currentMode + 1) % 27) ∧
    (∀ c, c.currentMode = 26 → (modeInc c).currentMode = 0) ∧
    (∀ c, c.currentMode = 0 → (modeDec c).currentMode = 26) ∧
    (∀ c, (brightInc c).ringBrightness = min (c.ringBrightness + 10) 255) ∧
    (∀ c, (brightDec c).ringBrightness = max (c.ringBrightness - 10) 0) := by
  refine ⟨fun c => rfl, fun c h => ?_, fun c h => ?_, fun c => ?_, fun c => ?_⟩
  · simp [modeInc, numModes, h]
  · simp [modeDec, numModes, h]
  · simp only [brightInc]
    split <;> omega
  · simp only [brightDec]
    split <;> omega

/-- Witness for `buttons_wrap_and_clamp`: incrementing from mode 26 wraps
to mode 0. -/
theorem buttons_wrap_and_clamp_witness :
    (modeInc { currentMode := 26, ringBrightness := 50 }).currentMode = 0 :=
  buttons_wrap_and_clamp.2.1 { currentMode := 26, ringBrightness := 50 } rfl

/-!
## The LED ring task (`ledRingTask`, lines 135-727)

One iteration of the `while (1)` loop is embedded as a function from the
shared config, a per-frame environment (the values produced by the FastLED
randomness/oscillator primitives during that iteration), the task's static
variables and the current frame buffer to the written buffer, the updated
statics and the `vTaskDelay` interval of the branch.  Every array access
`leds[i]` is bounds-checked (`Option`): the safety claims assert the checks
never fail.  Indices are `Int`, as the C index expressions are `int`.
-/

/-- One primitive effect of a loop iteration on the `leds` array:
`leds[i] = c`, `leds[i] += c`, or `fadeToBlackBy(leds, NUM_LEDS, k)`
(every `fadeToBlackBy` call in the task covers all `NUM_LEDS = 96` pixels). -/
inductive LedOp where
  | set (i : Int) (c : Color)
  | add (i : Int) (c : Color)
  | fade (k : Nat)
deriving DecidableEq, Repr

/-- FastLED `fadeToBlackBy(k)` scales every channel by `(256 - k) / 256`
(`nscale8(x, 255 - k)`, i.e. `x * (256 - k) >> 8`).  Symbolically tracked
HSV pixels have their value channel scaled. -/
def fadePixel (k : Nat) : Color → Color
  | .rgb r g b => .rgb (r * (256 - k) / 256) (g * (256 - k) / 256) (b * (256 - k) / 256)
  | .hsv h s v => .hsv h s (v * (256 - k) / 256)

/-- FastLED `+=` on pixels: saturating per-channel add (`qadd8`).  A blend
involving a symbolically tracked HSV operand is modelled as the new color
replacing the old (no claim under verification depends on blended channel
values). -/
def addPixel : Color → Color → Color
  | .rgb r g b, .rgb r2 g2 b2 =>
      .rgb (min (r + r2) 255) (min (g + g2) 255) (min (b + b2) 255)
  | _, c => c

/-- The frame buffer: the `CRGB leds[NUM_LEDS]` array (line 28). -/
abbrev Buffer := List Color

/-- The zero-initialized global `leds` array: 96 black pixels. -/
def buf0 : Buffer := List.replicate 96 black

/-- Perform one buffer operation, failing on an out-of-bounds index. -/
def applyOp (b : Buffer) : LedOp → Option Buffer
  | .set i c => if 0 ≤ i ∧ i < (b.length : Int) then some (b.set i.toNat c) else none
  | .add i c =>
      if 0 ≤ i ∧ i < (b.length : Int) then
        match b[i.toNat]? with
        | some old => some (b.set i.toNat (addPixel old c))
        | none => none
      else none
  | .fade k => some (b.map (fadePixel k))

/-- Perform a sequence of buffer operations in order. -/
def applyOps : List LedOp → Buffer → Option Buffer
  | [], b => some b
  | op :: ops, b =>
      match applyOp b op with
      | some b2 => applyOps ops b2
      | none => none

/-- `fill_solid(leds + off, count, c)`: set pixels `off .. off + count - 1`. -/
def fillOps (off count : Nat) (c : Color) : List LedOp :=
  (List.range count).map fun (i : Nat) => .set ((off + i : Nat) : Int) c

/-- The writes of `fill_ring_with_exact_rainbow(leds + off, 48, startHue)`
(lines 63-79): pixel `off + i` receives `CHSV(hue_i, 255, 255)` with the
hues of `rainbowPairs`. -/
def rainbowOps (off startHue : Nat) : List LedOp :=
  (rainbowPairs 0 startHue 0 48).map fun p => .set ((off + p.1 : Nat) : Int) (.hsv p.2 255 255)

/-- The static local variables of `ledRingTask` (each `static`, scoped to
its mode's branch in the source; gathered here as the task's persistent
state).  `uint8_t` fields are `Nat` kept `< 256`, `uint16_t` fields `Nat`
kept `< 65536`, C `int` fields are `Int`. -/
structure RingState where
  startHueRing1 : Nat := 0        -- line 137, uint8_t
  startHueRing2 : Nat := 0        -- line 138, uint8_t
  theatreOffset : Nat := 0        -- line 141, uint8_t
  wipeExp : Int := 0              -- line 144, int
  wipeColor : Color := blue       -- line 145
  sideWipeInitialized : Bool := false  -- line 146
  gHue : Nat := 0                 -- line 152, uint8_t
  toggle : Bool := false          -- line 174 (mode 2)
  runIndex1 : Int := 0            -- line 290 (mode 8)
  runIndex2 : Int := 0            -- line 291
  laserPos1 : Int := 0            -- line 308 (mode 9)
  laserPos2 : Int := 0            -- line 309
  strobeOn : Bool := false        -- line 332 (mode 10)
  strobeCount : Int := 0          -- line 333
  cometPos1 : Int := 0            -- line 359 (mode 11)
  cometPos2 : Int := 0            -- line 360
  bouncePos1 : Int := 0           -- line 380 (mode 12)
  bounceDir1 : Int := 1           -- line 381
  bouncePos2 : Int := 0           -- line 382
  bounceDir2 : Int := 1           -- line 383
  swirlX : Nat := 0               -- line 406 (mode 13), uint16_t
  barPos1 : Int := 0              -- line 491 (mode 17)
  barPos2 : Int := 0              -- line 498
  rippleCenter1 : Int := 0        -- line 515 (mode 18)
  rippleCenter2 : Int := 0        -- line 525
  pulseCounter : Int := 0         -- line 566 (mode 21)
  shockExp : Int := 0             -- line 582 (mode 22)
  shockCenter1 : Int              -- line 583, initialized `random(RING_LEDS)`
  shockCenter2 : Int              -- line 584, initialized `random(RING_LEDS)`
  dropCounter : Int := 0          -- line 621 (mode 23)
  slicePos1 : Int := 0            -- line 668 (mode 25)
  slicePos2 : Int := 0            -- line 669
  gapPos1 : Int := 0              -- line 694 (mode 26)
  gapPos2 : Int := 0              -- line 695

/-- The task's statics at task start, with `c1`, `c2` the `random(RING_LEDS)`
draws initializing `shockCenter1` / `shockCenter2`.  The pre-loop check
`if (currentMode != 4) sideWipeInitialized = false;` (lines 147-149) runs
once before the `while (1)` loop and is absorbed here: the flag is already
`false` at task start. -/
def ringInit (c1 c2 : Int) : RingState :=
  { shockCenter1 := c1, shockCenter2 := c2 }

/-- Per-frame environment: the values returned during one loop iteration by
the FastLED randomness and oscillator primitives, as uninterpreted inputs.
`Env.WF` constrains each to the primitive's documented range. -/
structure Env where
  rand96 : Int        -- random(NUM_LEDS), mode 5
  randHue : Nat       -- random(256), mode 5
  beatA : Int         -- beatsin8(10, 0, RING_LEDS-1), mode 6, first call
  beatB : Int         -- mode 6, second call
  jugA : Nat → Int    -- beatsin16(7+i, 0, RING_LEDS-1, 0, i*1000), mode 7 ring 1
  jugB : Nat → Int    -- mode 7 ring 2
  rand8a : Nat        -- random8(), modes 10 / 16 (first draw)
  rand8b : Nat        -- random8(), mode 16 (second draw)
  rand48a : Int       -- random(RING_LEDS), modes 16 / 22 (first draw)
  rand48b : Int       -- random(RING_LEDS), modes 16 / 22 (second draw)
  noise : Nat → Nat   -- inoise8(uint16_t), mode 13
  sine : Nat → Nat    -- sin8(uint8_t), mode 15
  pulse : Nat         -- beatsin8(30, 220, 255), mode 19
  heightA : Nat → Nat -- random8(1, barWidth + 1), mode 24 ring 1, per bar
  heightB : Nat → Nat -- mode 24 ring 2, per bar

/-- Range constraints of the randomness/oscillator primitives:
`random(n) ∈ [0, n)`, `random8() ∈ [0, 256)`, `beatsin8/16(_, lo, hi) ∈ [lo, hi]`,
`inoise8`/`sin8` return `uint8_t`, `random8(1, 17) ∈ [1, 16]`. -/
def Env.WF (e : Env) : Prop :=
  (0 ≤ e.rand96 ∧ e.rand96 < 96) ∧ e.randHue < 256 ∧
  (0 ≤ e.beatA ∧ e.beatA ≤ 47) ∧ (0 ≤ e.beatB ∧ e.beatB ≤ 47) ∧
  (∀ i, 0 ≤ e.jugA i ∧ e.jugA i ≤ 47) ∧ (∀ i, 0 ≤ e.jugB i ∧ e.jugB i ≤ 47) ∧
  e.rand8a < 256 ∧ e.rand8b < 256 ∧
  (0 ≤ e.rand48a ∧ e.rand48a < 48) ∧ (0 ≤ e.rand48b ∧ e.rand48b < 48) ∧
  (∀ x, e.noise x < 256) ∧ (∀ x, e.sine x < 256) ∧
  (220 ≤ e.pulse ∧ e.pulse ≤ 255) ∧
  (∀ b, 1 ≤ e.heightA b ∧ e.heightA b ≤ 16) ∧
  (∀ b, 1 ≤ e.heightB b ∧ e.heightB b ≤ 16)

/-- Mode 0 (lines 157-164), rainbow cycle: exact-rainbow fill of both rings,
then `startHueRing1++`, `startHueRing2++` (uint8). -/
def mode0Ops (_cfg : Config) (_env : Env) (s : RingState) : List LedOp × RingState × Nat :=
  (rainbowOps 0 s.startHueRing1 ++ rainbowOps 48 s.startHueRing2,
   { s with startHueRing1 := (s.startHueRing1 + 1) % 256,
            startHueRing2 := (s.startHueRing2 + 1) % 256 }, 10)

/-- Mode 1 (lines 166-170), solid blue. -/
def mode1Ops (_cfg : Config) (_env : Env) (s : RingState) : List LedOp × RingState × Nat :=
  (fillOps 0 96 blue, s, 50)

/-- Mode 2 (lines 172-180), flash white: whole-buffer white/black toggle. -/
def mode2Ops (_cfg : Config) (_env : Env) (s : RingState) : List LedOp × RingState × Nat :=
  (fillOps 0 96 (if s.toggle then white else black), { s with toggle := !s.toggle }, 100)

/-- Mode 3 (lines 182-194), theatre chase: clear to black, then white where
`(i + theatreOffset) % 3 == 0`; `theatreOffset++` (uint8). -/
def mode3Ops (_cfg : Config) (_env : Env) (s : RingState) : List LedOp × RingState × Nat :=
  (fillOps 0 96 black ++
     ((List.range 96).filterMap fun (i : Nat) =>
       if (i + s.theatreOffset) % 3 = 0 then some (.set (i : Nat) white) else none),
   { s with theatreOffset := (s.theatreOffset + 1) % 256 }, 50)

/-- Mode 4 (lines 196-237), side wipe.  On first entry (`!sideWipeInitialized`)
the buffer is cleared, `wipeExp = 0` and the flag is set (the extra
`FastLED.show()` / 50 ms delay of the init block only affect timing).  Then
the four wipe pixels are written (guarded `idx1 <= idx2`, `idx3 <= idx4`),
`wipeExp++`, and past 24 the counter resets and the color toggles
Blue <-> Red. -/
def mode4Ops (_cfg : Config) (_env : Env) (s : RingState) : List LedOp × RingState × Nat :=
  let clearOps : List LedOp := if s.sideWipeInitialized then [] else fillOps 0 96 black
  let e : Int := if s.sideWipeInitialized then s.wipeExp else 0
  let ring1 : List LedOp :=
    if e ≤ 47 - e then [.set e s.wipeColor, .set (47 - e) s.wipeColor] else []
  let ring2 : List LedOp :=
    if 48 + e ≤ 95 - e then [.set (48 + e) s.wipeColor, .set (95 - e) s.wipeColor] else []
  let s2 :=
    if e + 1 > 24 then
      { s with wipeExp := 0, sideWipeInitialized := true,
               wipeColor := if s.wipeColor = blue then red else blue }
    else { s with wipeExp := e + 1, sideWipeInitialized := true }
  (clearOps ++ ring1 ++ ring2, s2, 15)

/-- Mode 5 (lines 239-247), sparkle: fade 10, one random pixel gets a random
hue. -/
def mode5Ops (_cfg : Config) (env : Env) (s : RingState) : List LedOp × RingState × Nat :=
  ([.fade 10, .set env.rand96 (.hsv env.randHue 200 255)], s, 30)

/-- Mode 6 (lines 249-266), sinelon: fade 20, additive dot at `beatsin8`
position on ring 1, mirrored (`47 - pos`) on ring 2; `gHue++`. -/
def mode6Ops (_cfg : Config) (env : Env) (s : RingState) : List LedOp × RingState × Nat :=
  ([.fade 20,
    .add env.beatA (.hsv s.gHue 200 255),
    .add (48 + (47 - env.beatB)) (.hsv ((s.gHue + 64) % 256) 200 255)],
   { s with gHue := (s.gHue + 1) % 256 }, 20)

/-- Mode 7 (lines 268-285), juggle: fade 20, four additive dots per ring
(`beatsin16`), ring 2 mirrored; `gHue++`. -/
def mode7Ops (_cfg : Config) (env : Env) (s : RingState) : List LedOp × RingState × Nat :=
  (.fade 20 ::
    (((List.range 4).map fun (i : Nat) =>
        LedOp.add (env.jugA i) (.hsv ((s.gHue + i * 32) % 256) 200 255)) ++
     ((List.range 4).map fun (i : Nat) =>
        LedOp.add (48 + (47 - env.jugB i)) (.hsv ((s.gHue + 128 + i * 32) % 256) 200 255))),
   { s with gHue := (s.gHue + 1) % 256 }, 20)

/-- Mode 8 (lines 287-303), running lights: fade 50, white dot per ring at
`runIndex`, then `runIndex = (runIndex + 1) % 48`. -/
def mode8Ops (_cfg : Config) (_env : Env) (s : RingState) : List LedOp × RingState × Nat :=
  ([.fade 50, .set s.runIndex1 white, .set (s.runIndex2 + 48) white],
   { s with runIndex1 := (s.runIndex1 + 1) % 48, runIndex2 := (s.runIndex2 + 1) % 48 }, 30)

/-- Mode 9 (lines 305-329), laser sweep: fade 40, 3-pixel band from
`laserPos` per ring (ring 2 mirrored), positions advance `% 48`; `gHue++`. -/
def mode9Ops (_cfg : Config) (_env : Env) (s : RingState) : List LedOp × RingState × Nat :=
  (.fade 40 ::
    (((List.range 3).map fun (i : Nat) =>
        LedOp.set ((s.laserPos1 + i) % 48) (.hsv s.gHue 255 255)) ++
     ((List.range 3).map fun (i : Nat) =>
        LedOp.set (48 + (47 - (s.laserPos2 + i) % 48)) (.hsv ((s.gHue + 64) % 256) 255 255))),
   { s with laserPos1 := (s.laserPos1 + 1) % 48, laserPos2 := (s.laserPos2 + 1) % 48,
            gHue := (s.gHue + 1) % 256 }, 20)

/-- Mode 10 (lines 331-356), strobe fade: while `strobeOn`, fill with
`CHSV(gHue, 255, ringBrightness)` and count to 3 flashes; otherwise fade 80
and restart the strobe when `random8() < 50`; `gHue++`. -/
def mode10Ops (cfg : Config) (env : Env) (s : RingState) : List LedOp × RingState × Nat :=
  if s.strobeOn then
    let s2 := if s.strobeCount + 1 > 2 then { s with strobeOn := false, strobeCount := 0 }
              else { s with strobeCount := s.strobeCount + 1 }
    (fillOps 0 96 (.hsv s.gHue 255 (toU8 cfg.ringBrightness)),
     { s2 with gHue := (s.gHue + 1) % 256 }, 30)
  else
    ([.fade 80],
     { s with strobeOn := decide (env.rand8a < 50) || s.strobeOn,
              gHue := (s.gHue + 1) % 256 }, 30)

/-- Mode 11 (lines 358-377), orbiting comets: fade 40, two dots per ring
(ring 2 mirrored), `cometPos1 += 1`, `cometPos2 += 2` (mod 48); `gHue++`. -/
def mode11Ops (_cfg : Config) (_env : Env) (s : RingState) : List LedOp × RingState × Nat :=
  ([.fade 40,
    .set s.cometPos1 (.hsv s.gHue 255 255),
    .set s.cometPos2 (.hsv ((s.gHue + 32) % 256) 255 255),
    .set (48 + (47 - s.cometPos1)) (.hsv ((s.gHue + 64) % 256) 255 255),
    .set (48 + (47 - s.cometPos2)) (.hsv ((s.gHue + 96) % 256) 255 255)],
   { s with cometPos1 := (s.cometPos1 + 1) % 48, cometPos2 := (s.cometPos2 + 2) % 48,
            gHue := (s.gHue + 1) % 256 }, 30)

/-- Mode 12 (lines 379-403), color bounce: fade 50, bouncing dot per ring
(ring 2 mirrored); position moves by `bounceDir`, direction reverses at
`>= 47` or `<= 0`; `gHue++`. -/
def mode12Ops (_cfg : Config) (_env : Env) (s : RingState) : List LedOp × RingState × Nat :=
  let p1 := s.bouncePos1 + s.bounceDir1
  let d1 := if p1 ≥ 47 ∨ p1 ≤ 0 then -s.bounceDir1 else s.bounceDir1
  let p2 := s.bouncePos2 + s.bounceDir2
  let d2 := if p2 ≥ 47 ∨ p2 ≤ 0 then -s.bounceDir2 else s.bounceDir2
  ([.fade 50,
    .set s.bouncePos1 (.hsv s.gHue 255 255),
    .set (48 + (47 - s.bouncePos2)) (.hsv ((s.gHue + 64) % 256) 255 255)],
   { s with bouncePos1 := p1, bounceDir1 := d1, bouncePos2 := p2, bounceDir2 := d2,
            gHue := (s.gHue + 1) % 256 }, 40)

/-- Mode 13 (lines 405-422), psychedelic swirl: per-pixel hue from
`inoise8(i*40 + swirlX)` (argument truncated to uint16), ring 2 mirrored
with hue offset 64; `swirlX += 30` (uint16). -/
def mode13Ops (cfg : Config) (env : Env) (s : RingState) : List LedOp × RingState × Nat :=
  ((((List.range 48).map fun (i : Nat) =>
       LedOp.set (i : Nat) (.hsv (env.noise ((i * 40 + s.swirlX) % 65536)) 255
         (toU8 cfg.ringBrightness))) ++
    ((List.range 48).map fun (i : Nat) =>
       LedOp.set (48 + (47 - (i : Int)))
         (.hsv ((env.noise ((i * 40 + s.swirlX) % 65536) + 64) % 256) 255
           (toU8 cfg.ringBrightness)))),
   { s with swirlX := (s.swirlX + 30) % 65536 }, 20)

/-- Mode 14 (lines 424-448), neon grid: stripes of width 4 with offset
`gHue % 8`, ring 2 mirrored with hue offset 64; `gHue++`. -/
def mode14Ops (cfg : Config) (_env : Env) (s : RingState) : List LedOp × RingState × Nat :=
  ((((List.range 48).map fun (i : Nat) =>
       LedOp.set (i : Nat)
         (if (i + s.gHue % 8) % 8 < 4 then Color.hsv s.gHue 255 (toU8 cfg.ringBrightness)
          else black)) ++
    ((List.range 48).map fun (i : Nat) =>
       LedOp.set (48 + (47 - (i : Int)))
         (if (i + s.gHue % 8) % 8 < 4 then
            Color.hsv ((s.gHue + 64) % 256) 255 (toU8 cfg.ringBrightness)
          else black))),
   { s with gHue := (s.gHue + 1) % 256 }, 30)

/-- Mode 15 (lines 450-466), echo waves: per-pixel brightness
`sin8(i*10 + gHue)` (argument truncated to uint8), ring 2 mirrored with hue
offset 96; `gHue++`. -/
def mode15Ops (_cfg : Config) (env : Env) (s : RingState) : List LedOp × RingState × Nat :=
  ((((List.range 48).map fun (i : Nat) =>
       LedOp.set (i : Nat) (.hsv s.gHue 255 (env.sine ((i * 10 + s.gHue) % 256)))) ++
    ((List.range 48).map fun (i : Nat) =>
       LedOp.set (48 + (47 - (i : Int)))
         (.hsv ((s.gHue + 96) % 256) 255 (env.sine ((i * 10 + s.gHue) % 256))))),
   { s with gHue := (s.gHue + 1) % 256 }, 20)

/-- Mode 16 (lines 468-486), firefly dance: fade 30, with probability
`random8() < 80` per ring one random dot (ring 2 mirrored); `gHue++`. -/
def mode16Ops (_cfg : Config) (env : Env) (s : RingState) : List LedOp × RingState × Nat :=
  (.fade 30 ::
    ((if env.rand8a < 80 then [LedOp.set env.rand48a (.hsv s.gHue 200 255)] else []) ++
     (if env.rand8b < 80 then
        [LedOp.set (48 + (47 - env.rand48b)) (.hsv ((s.gHue + 64) % 256) 200 255)]
      else [])),
   { s with gHue := (s.gHue + 1) % 256 }, 30)

/-- Mode 17 (lines 488-511), spinning bar: each ring cleared to black then a
6-pixel bar from `barPos` (ring 2 mirrored); positions advance `% 48`;
`gHue++`. -/
def mode17Ops (cfg : Config) (_env : Env) (s : RingState) : List LedOp × RingState × Nat :=
  (fillOps 0 48 black ++
     ((List.range 6).map fun (i : Nat) =>
       LedOp.set ((s.barPos1 + i) % 48) (.hsv s.gHue 255 (toU8 cfg.ringBrightness))) ++
   fillOps 48 48 black ++
     ((List.range 6).map fun (i : Nat) =>
       LedOp.set (48 + (47 - (s.barPos2 + i) % 48))
         (.hsv ((s.gHue + 64) % 256) 255 (toU8 cfg.ringBrightness))),
   { s with barPos1 := (s.barPos1 + 1) % 48, barPos2 := (s.barPos2 + 1) % 48,
            gHue := (s.gHue + 1) % 256 }, 30)

/-- Mode 18 (lines 513-540), liquid ripple: per-pixel brightness
`255 - d*10` with `d` the circular distance (`min(|i-c|, 48-|i-c|)`) to the
moving center; ring 2 mirrored with hue offset 128; centers advance `% 48`;
`gHue++`. -/
def mode18Ops (_cfg : Config) (_env : Env) (s : RingState) : List LedOp × RingState × Nat :=
  ((((List.range 48).map fun (i : Nat) =>
       let d : Int := min |(i : Int) - s.rippleCenter1| (48 - |(i : Int) - s.rippleCenter1|)
       LedOp.set (i : Nat) (.hsv s.gHue 255 (toU8 (255 - d * 10)))) ++
    ((List.range 48).map fun (i : Nat) =>
       let d : Int := min |(i : Int) - s.rippleCenter2| (48 - |(i : Int) - s.rippleCenter2|)
       LedOp.set (48 + (47 - (i : Int)))
         (.hsv ((s.gHue + 128) % 256) 255 (toU8 (255 - d * 10))))),
   { s with rippleCenter1 := (s.rippleCenter1 + 1) % 48,
            rippleCenter2 := (s.rippleCenter2 + 1) % 48,
            gHue := (s.gHue + 1) % 256 }, 40)

/-- Mode 19 (lines 542-551), full throttle pulse: whole-buffer fill at
brightness `beatsin8(30, 220, 255)`; `gHue++`. -/
def mode19Ops (_cfg : Config) (env : Env) (s : RingState) : List LedOp × RingState × Nat :=
  (fillOps 0 96 (.hsv s.gHue 255 env.pulse), { s with gHue := (s.gHue + 1) % 256 }, 20)

/-- Mode 20 (lines 553-563), rave strobe: full-bright fill per ring (ring 2
hue offset 64); `gHue += 5`. -/
def mode20Ops (_cfg : Config) (_env : Env) (s : RingState) : List LedOp × RingState × Nat :=
  (fillOps 0 48 (.hsv s.gHue 255 255) ++ fillOps 48 48 (.hsv ((s.gHue + 64) % 256) 255 255),
   { s with gHue := (s.gHue + 5) % 256 }, 20)

/-- Mode 21 (lines 565-579), thunder pulse: brightness 255 on the first 5 of
every 60 frames, else 220; `pulseCounter = (pulseCounter + 1) % 60`;
`gHue++`. -/
def mode21Ops (_cfg : Config) (_env : Env) (s : RingState) : List LedOp × RingState × Nat :=
  (fillOps 0 96 (.hsv s.gHue 255 (if s.pulseCounter % 60 < 5 then 255 else 220)),
   { s with pulseCounter := (s.pulseCounter + 1) % 60, gHue := (s.gHue + 1) % 256 }, 30)

/-- Mode 22 (lines 581-617), shockwave: clear, then light pixels within
circular distance `shockExp` of each ring's center (ring 2 mirrored);
`shockExp += 3`, past 12 reset to 0 with fresh random centers and `gHue++`. -/
def mode22Ops (_cfg : Config) (env : Env) (s : RingState) : List LedOp × RingState × Nat :=
  (fillOps 0 96 black ++
     ((List.range 48).filterMap fun (i : Nat) =>
       let d0 : Int := |(i : Int) - s.shockCenter1|
       let d : Int := if d0 > 24 then 48 - d0 else d0
       if d ≤ s.shockExp then some (LedOp.set (i : Nat) (.hsv s.gHue 255 255)) else none) ++
     ((List.range 48).filterMap fun (i : Nat) =>
       let d0 : Int := |(i : Int) - s.shockCenter2|
       let d : Int := if d0 > 24 then 48 - d0 else d0
       if d ≤ s.shockExp then
         some (LedOp.set (48 + (47 - (i : Int))) (.hsv ((s.gHue + 32) % 256) 255 255))
       else none),
   if s.shockExp + 3 > 12 then
     { s with shockExp := 0, shockCenter1 := env.rand48a, shockCenter2 := env.rand48b,
              gHue := (s.gHue + 1) % 256 }
   else { s with shockExp := s.shockExp + 3 }, 10)

/-- Mode 23 (lines 620-634), bass drop: full-bright fill on every 4th frame,
else blackout; `dropCounter++`, `gHue += 3`. -/
def mode23Ops (_cfg : Config) (_env : Env) (s : RingState) : List LedOp × RingState × Nat :=
  (if s.dropCounter % 4 = 0 then fillOps 0 96 (.hsv s.gHue 255 255) else fillOps 0 96 black,
   { s with dropCounter := s.dropCounter + 1, gHue := (s.gHue + 3) % 256 }, 100)

/-- One bar of mode 24: 16 pixels of ring 1 at `b*16 + i`, lit below
`height1`, then 16 pixels of ring 2 reversed within the bar
(`48 + b*16 + (15 - i)`), lit below `height2`. -/
def mode24Bar (env : Env) (g : Nat) (b : Nat) : List LedOp :=
  ((List.range 16).map fun (i : Nat) =>
    LedOp.set ((b * 16 + i : Nat) : Int)
      (if i < env.heightA b then Color.hsv ((g + b * 40) % 256) 255 255 else black)) ++
  ((List.range 16).map fun (i : Nat) =>
    LedOp.set ((48 + (b * 16 + (15 - i)) : Nat) : Int)
      (if i < env.heightB b then Color.hsv ((g + 128 + b * 40) % 256) 255 255 else black))

/-- Mode 24 (lines 636-664), dynamic bar graph: three 16-pixel bars per ring
with random heights in `[1, 16]`; `gHue++`. -/
def mode24Ops (_cfg : Config) (env : Env) (s : RingState) : List LedOp × RingState × Nat :=
  (mode24Bar env s.gHue 0 ++ mode24Bar env s.gHue 1 ++ mode24Bar env s.gHue 2,
   { s with gHue := (s.gHue + 1) % 256 }, 80)

/-- Mode 25 (lines 666-690), sonic slicer: fade 80, 6-pixel slice from
`slicePos` per ring (ring 2 mirrored); positions advance by 2 `% 48`;
`gHue += 2`. -/
def mode25Ops (_cfg : Config) (_env : Env) (s : RingState) : List LedOp × RingState × Nat :=
  (.fade 80 ::
    (((List.range 6).map fun (i : Nat) =>
        LedOp.set ((s.slicePos1 + i) % 48) (.hsv s.gHue 255 255)) ++
     ((List.range 6).map fun (i : Nat) =>
        LedOp.set (48 + (47 - (s.slicePos2 + i) % 48)) (.hsv ((s.gHue + 64) % 256) 255 255))),
   { s with slicePos1 := (s.slicePos1 + 2) % 48, slicePos2 := (s.slicePos2 + 2) % 48,
            gHue := (s.gHue + 2) % 256 }, 10)

/-- Mode 26 (lines 692-718), radial surge: full-bright fill per ring, then a
4-pixel black gap from `gapPos` per ring (ring 2 mirrored); positions advance
by 3 `% 48`; `gHue++`. -/
def mode26Ops (_cfg : Config) (_env : Env) (s : RingState) : List LedOp × RingState × Nat :=
  (fillOps 0 48 (.hsv s.gHue 255 255) ++ fillOps 48 48 (.hsv ((s.gHue + 64) % 256) 255 255) ++
     ((List.range 4).map fun (i : Nat) => LedOp.set ((s.gapPos1 + i) % 48) black) ++
     ((List.range 4).map fun (i : Nat) => LedOp.set (48 + (47 - (s.gapPos2 + i) % 48)) black),
   { s with gapPos1 := (s.gapPos1 + 3) % 48, gapPos2 := (s.gapPos2 + 3) % 48,
            gHue := (s.gHue + 1) % 256 }, 50)

/-- The `default` branch (lines 720-724): all black, slow refresh. -/
def defaultOps (_cfg : Config) (_env : Env) (s : RingState) : List LedOp × RingState × Nat :=
  (fillOps 0 96 black, s, 50)

/-- The `switch (currentMode)` dispatch of one `while (1)` iteration
(lines 155-726): buffer operations, updated statics, `vTaskDelay` interval. -/
def ledRingOps (cfg : Config) (env : Env) (s : RingState) : List LedOp × RingState × Nat :=
  if cfg.currentMode = 0 then mode0Ops cfg env s
  else if cfg.currentMode = 1 then mode1Ops cfg env s
  else if cfg.currentMode = 2 then mode2Ops cfg env s
  else if cfg.currentMode = 3 then mode3Ops cfg env s
  else if cfg.currentMode = 4 then mode4Ops cfg env s
  else if cfg.currentMode = 5 then mode5Ops cfg env s
  else if cfg.currentMode = 6 then mode6Ops cfg env s
  else if cfg.currentMode = 7 then mode7Ops cfg env s
  else if cfg.currentMode = 8 then mode8Ops cfg env s
  else if cfg.currentMode = 9 then mode9Ops cfg env s
  else if cfg.currentMode = 10 then mode10Ops cfg env s
  else if cfg.currentMode = 11 then mode11Ops cfg env s
  else if cfg.currentMode = 12 then mode12Ops cfg env s
  else if cfg.currentMode = 13 then mode13Ops cfg env s
  else if cfg.currentMode = 14 then mode14Ops cfg env s
  else if cfg.currentMode = 15 then mode15Ops cfg env s
  else if cfg.currentMode = 16 then mode16Ops cfg env s
  else if cfg.currentMode = 17 then mode17Ops cfg env s
  else if cfg.currentMode = 18 then mode18Ops cfg env s
  else if cfg.currentMode = 19 then mode19Ops cfg env s
  else if cfg.currentMode = 20 then mode20Ops cfg env s
  else if cfg.currentMode = 21 then mode21Ops cfg env s
  else if cfg.currentMode = 22 then mode22Ops cfg env s
  else if cfg.currentMode = 23 then mode23Ops cfg env s
  else if cfg.currentMode = 24 then mode24Ops cfg env s
  else if cfg.currentMode = 25 then mode25Ops cfg env s
  else if cfg.currentMode = 26 then mode26Ops cfg env s
  else defaultOps cfg env s

/-- One full iteration of the `ledRingTask` loop: perform the active mode's
buffer operations (failing on an out-of-bounds `leds` index), returning the
written buffer, the updated statics and the branch's delay. -/
def frame (cfg : Config) (env : Env) (s : RingState) (b : Buffer) :
    Option (Buffer × RingState × Nat) :=
  match applyOps (ledRingOps cfg env s).1 b with
  | some b2 => some (b2, (ledRingOps cfg env s).2.1, (ledRingOps cfg env s).2.2)
  | none => none

/-- A buffer operation whose index is within the 96-pixel buffer. -/
def opSafe : LedOp → Prop
  | .set i _ => 0 ≤ i ∧ i < 96
  | .add i _ => 0 ≤ i ∧ i < 96
  | .fade _ => True

/-- A buffer operation that neither touches index `j` nor fades the whole
buffer. -/
def opAvoids (j : Nat) : LedOp → Prop
  | .set i _ => i ≠ (j : Int)
  | .add i _ => i ≠ (j : Int)
  | .fade _ => False

theorem applyOps_cons (op : LedOp) (ops : List LedOp) (b : Buffer) :
    applyOps (op :: ops) b
      = match applyOp b op with
        | some b2 => applyOps ops b2
        | none => none := rfl

theorem applyOp_some_of_safe {b : Buffer} {op : LedOp} (hb : b.length = 96)
    (h : opSafe op) : ∃ b2, applyOp b op = some b2 ∧ b2.length = 96 := by
  cases op with
  | set i c =>
      obtain ⟨h0, h1⟩ := h
      refine ⟨b.set i.toNat c, ?_, by simp [hb]⟩
      simp only [applyOp, hb]
      rw [if_pos ⟨h0, by exact_mod_cast h1⟩]
  | add i c =>
      obtain ⟨h0, h1⟩ := h
      have hlt : i.toNat < b.length := by rw [hb]; omega
      refine ⟨b.set i.toNat (addPixel (b.get ⟨i.toNat, hlt⟩) c), ?_, by simp [hb]⟩
      simp only [applyOp, hb]
      rw [if_pos ⟨h0, by exact_mod_cast h1⟩, List.getElem?_eq_getElem hlt]
      rfl
  | fade k => exact ⟨b.map (fadePixel k), rfl, by simp [hb]⟩

theorem applyOps_some {ops : List LedOp} : ∀ {b : Buffer}, b.length = 96 →
    (∀ op ∈ ops, opSafe op) → ∃ b2, applyOps ops b = some b2 ∧ b2.length = 96 := by
  induction ops with
  | nil => intro b hb _; exact ⟨b, rfl, hb⟩
  | cons op ops ih =>
      intro b hb hsafe
      obtain ⟨b1, hop, hb1⟩ := applyOp_some_of_safe hb (hsafe op (List.mem_cons_self _ _))
      obtain ⟨b2, hops, hb2⟩ := ih hb1 (fun o ho => hsafe o (List.mem_cons_of_mem _ ho))
      exact ⟨b2, by simp only [applyOps, hop]; exact hops, hb2⟩

theorem applyOps_append (xs ys : List LedOp) : ∀ (b : Buffer),
    applyOps (xs ++ ys) b = (applyOps xs b).bind (applyOps ys) := by
  induction xs with
  | nil => intro b; rfl
  | cons op xs ih =>
      intro b
      simp only [List.cons_append, applyOps]
      cases applyOp b op with
      | none => rfl
      | some b2 => exact ih b2

theorem applyOp_getElem?_of_avoids {b b2 : Buffer} {op : LedOp} {j : Nat}
    (h : applyOp b op = some b2) (ha : opAvoids j op) : b2[j]? = b[j]? := by
  cases op with
  | set i c =>
      simp only [applyOp] at h
      split at h
      · cases h
        have : i.toNat ≠ j := by
          intro he
          rename_i hc
          exact ha (by omega)
        exact List.getElem?_set_ne this
      · cases h
  | add i c =>
      simp only [applyOp] at h
      split at h
      · rename_i hc
        cases hg : b[i.toNat]? with
        | none => rw [hg] at h; cases h
        | some old =>
            rw [hg] at h
            cases h
            have : i.toNat ≠ j := by
              intro he
              exact ha (by omega)
            exact List.getElem?_set_ne this
      · cases h
  | fade k => exact absurd ha not_false

theorem applyOps_getElem?_of_avoids {ops : List LedOp} : ∀ {b b2 : Buffer} {j : Nat},
    applyOps ops b = some b2 → (∀ op ∈ ops, opAvoids j op) → b2[j]? = b[j]? := by
  induction ops with
  | nil => intro b b2 j h _; cases h; rfl
  | cons op ops ih =>
      intro b b2 j h ha
      simp only [applyOps] at h
      cases hop : applyOp b op with
      | none => rw [hop] at h; cases h
      | some b1 =>
          rw [hop] at h
          rw [ih h (fun o ho => ha o (List.mem_cons_of_mem _ ho)),
            applyOp_getElem?_of_avoids hop (ha op (List.mem_cons_self _ _))]

theorem applyOps_length {ops : List LedOp} : ∀ {b b2 : Buffer},
    applyOps ops b = some b2 → b2.length = b.length := by
  induction ops with
  | nil => intro b b2 h; cases h; rfl
  | cons op ops ih =>
      intro b b2 h
      simp only [applyOps] at h
      cases hop : applyOp b op with
      | none => rw [hop] at h; cases h
      | some b1 =>
          rw [hop] at h
          have h1 : b1.length = b.length := by
            cases op with
            | set i c =>
                simp only [applyOp] at hop
                split at hop
                · cases hop; simp
                · cases hop
            | add i c =>
                simp only [applyOp] at hop
                split at hop
                · cases hg : (b[i.toNat]?) with
                  | none => rw [hg] at hop; cases hop
                  | some old => rw [hg] at hop; cases hop; simp
                · cases hop
            | fade k => cases hop; simp
          rw [ih h, h1]

/-- Effect of a `fill_solid` segment: every index in `[off, off + count)`
becomes `c`, everything else is untouched. -/
theorem applyOps_fillOps (c : Color) (count : Nat) : ∀ (off : Nat) (b : Buffer),
    off + count ≤ b.length →
    ∃ b2, applyOps (fillOps off count c) b = some b2 ∧ b2.length = b.length ∧
      ∀ j : Nat, b2[j]? = if off ≤ j ∧ j < off + count then some c else b[j]? := by
  induction count with
  | zero =>
      intro off b _
      refine ⟨b, rfl, rfl, fun j => ?_⟩
      rw [if_neg (by omega)]
  | succ n ih =>
      intro off b hlen
      have hstep : fillOps off (n + 1) c
          = fillOps off n c ++ [.set ((off + n : Nat) : Int) c] := by
        simp [fillOps, List.range_succ]
      obtain ⟨b1, h1, hl1, hg1⟩ := ih off b (by omega)
      have hset : applyOp b1 (.set ((off + n : Nat) : Int) c)
          = some (b1.set (off + n) c) := by
        simp only [applyOp]
        rw [if_pos ⟨by positivity, by rw [hl1]; exact_mod_cast (by omega : off + n < b.length)⟩]
        norm_cast
      refine ⟨b1.set (off + n) c, ?_, by simp [hl1], fun j => ?_⟩
      · rw [hstep, applyOps_append, h1]
        simp only [Option.some_bind, applyOps, hset]
      · by_cases hj : j = off + n
        · subst hj
          rw [List.getElem?_set_eq_of_lt c (by omega), if_pos (by omega)]
        · rw [List.getElem?_set_ne (by omega), hg1 j]
          by_cases hin : off ≤ j ∧ j < off + n
          · rw [if_pos hin, if_pos (by omega)]
          · rw [if_neg hin, if_neg (by omega)]

theorem fillOps_safe (off count : Nat) (c : Color) (h : off + count ≤ 96) :
    ∀ op ∈ fillOps off count c, opSafe op := by
  intro op hop
  simp only [fillOps, List.mem_map, List.mem_range] at hop
  obtain ⟨i, hi, rfl⟩ := hop
  exact ⟨by positivity, by exact_mod_cast (by omega : off + i < 96)⟩

theorem rainbowPairs_fst (fuel : Nat) : ∀ i hue err, ∀ p ∈ rainbowPairs i hue err fuel,
    i ≤ p.1 ∧ p.1 < i + fuel := by
  induction fuel with
  | zero => intro i hue err p hp; cases hp
  | succ n ih =>
      intro i hue err p hp
      unfold rainbowPairs at hp
      dsimp only at hp
      rcases List.mem_cons.1 hp with rfl | hp
      · omega
      · split at hp <;> exact (by have := ih _ _ _ p hp; omega)

theorem rainbowOps_safe (off s : Nat) (h : off + 48 ≤ 96) :
    ∀ op ∈ rainbowOps off s, opSafe op := by
  intro op hop
  simp only [rainbowOps, List.mem_map] at hop
  obtain ⟨p, hp, rfl⟩ := hop
  have := rainbowPairs_fst 48 0 s 0 p hp
  exact ⟨by positivity, by exact_mod_cast (by omega : off + p.1 < 96)⟩

/-- Invariant on the task statics, established at task start and preserved
by every loop iteration (given in-range primitive draws): each uint8/uint16
field stays below its modulus, every ring position counter stays in
`[0, 48)`, the wipe cycle within its 25 steps with a Blue/Red color, the
strobe count within its 3 flashes, the shock radius within its cycle, and
the mode-12 bounce state consistent (direction ±1, reversed at the ends). -/
structure RingWF (s : RingState) : Prop where
  hue1 : s.startHueRing1 < 256
  hue2 : s.startHueRing2 < 256
  theatre : s.theatreOffset < 256
  wipe0 : 0 ≤ s.wipeExp
  wipe24 : s.wipeExp ≤ 24
  wipeC : s.wipeColor = blue ∨ s.wipeColor = red
  ghue : s.gHue < 256
  run1a : 0 ≤ s.runIndex1
  run1b : s.runIndex1 < 48
  run2a : 0 ≤ s.runIndex2
  run2b : s.runIndex2 < 48
  las1a : 0 ≤ s.laserPos1
  las1b : s.laserPos1 < 48
  las2a : 0 ≤ s.laserPos2
  las2b : s.laserPos2 < 48
  strobe0 : 0 ≤ s.strobeCount
  strobe2 : s.strobeCount ≤ 2
  com1a : 0 ≤ s.cometPos1
  com1b : s.cometPos1 < 48
  com2a : 0 ≤ s.cometPos2
  com2b : s.cometPos2 < 48
  bon1a : 0 ≤ s.bouncePos1
  bon1b : s.bouncePos1 ≤ 47
  bod1 : s.bounceDir1 = 1 ∨ s.bounceDir1 = -1
  bot1 : s.bouncePos1 = 47 → s.bounceDir1 = -1
  bob1 : s.bouncePos1 = 0 → s.bounceDir1 = 1
  bon2a : 0 ≤ s.bouncePos2
  bon2b : s.bouncePos2 ≤ 47
  bod2 : s.bounceDir2 = 1 ∨ s.bounceDir2 = -1
  bot2 : s.bouncePos2 = 47 → s.bounceDir2 = -1
  bob2 : s.bouncePos2 = 0 → s.bounceDir2 = 1
  swirl : s.swirlX < 65536
  bar1a : 0 ≤ s.barPos1
  bar1b : s.barPos1 < 48
  bar2a : 0 ≤ s.barPos2
  bar2b : s.barPos2 < 48
  rip1a : 0 ≤ s.rippleCenter1
  rip1b : s.rippleCenter1 < 48
  rip2a : 0 ≤ s.rippleCenter2
  rip2b : s.rippleCenter2 < 48
  pulse0 : 0 ≤ s.pulseCounter
  pulse60 : s.pulseCounter < 60
  shock0 : 0 ≤ s.shockExp
  shock12 : s.shockExp ≤ 12
  sc1a : 0 ≤ s.shockCenter1
  sc1b : s.shockCenter1 < 48
  sc2a : 0 ≤ s.shockCenter2
  sc2b : s.shockCenter2 < 48
  drop0 : 0 ≤ s.dropCounter
  sli1a : 0 ≤ s.slicePos1
  sli1b : s.slicePos1 < 48
  sli2a : 0 ≤ s.slicePos2
  sli2b : s.slicePos2 < 48
  gap1a : 0 ≤ s.gapPos1
  gap1b : s.gapPos1 < 48
  gap2a : 0 ≤ s.gapPos2
  gap2b : s.gapPos2 < 48

theorem ringInit_wf (c1 c2 : Int) (h1 : 0 ≤ c1) (h2 : c1 < 48)
    (h3 : 0 ≤ c2) (h4 : c2 < 48) : RingWF (ringInit c1 c2) := by
  constructor <;>
    first
      | assumption
      | (dsimp only [ringInit]; first | omega | exact Or.inl rfl)

theorem mode0_safe (cfg : Config) (env : Env) (s : RingState) :
    ∀ op ∈ (mode0Ops cfg env s).1, opSafe op := by
  intro op hop
  simp only [mode0Ops, List.mem_append] at hop
  rcases hop with h | h
  · exact rainbowOps_safe 0 _ (by omega) op h
  · exact rainbowOps_safe 48 _ (by omega) op h

theorem mode1_safe (cfg : Config) (env : Env) (s : RingState) :
    ∀ op ∈ (mode1Ops cfg env s).1, opSafe op := by
  intro op hop
  simp only [mode1Ops] at hop
  exact fillOps_safe 0 96 blue (by omega) op hop

theorem mode2_safe (cfg : Config) (env : Env) (s : RingState) :
    ∀ op ∈ (mode2Ops cfg env s).1, opSafe op := by
  intro op hop
  simp only [mode2Ops] at hop
  exact fillOps_safe 0 96 _ (by omega) op hop

theorem mode3_safe (cfg : Config) (env : Env) (s : RingState) :
    ∀ op ∈ (mode3Ops cfg env s).1, opSafe op := by
  intro op hop
  simp only [mode3Ops, List.mem_append] at hop
  rcases hop with h | h
  · exact fillOps_safe 0 96 black (by omega) op h
  · simp only [List.mem_filterMap, List.mem_range] at h
    obtain ⟨i, hi, hf⟩ := h
    split at hf
    · cases hf
      exact ⟨by positivity, by exact_mod_cast hi⟩
    · cases hf

theorem mode4_safe (cfg : Config) (env : Env) (s : RingState) (hw : RingWF s) :
    ∀ op ∈ (mode4Ops cfg env s).1, opSafe op := by
  cases hw
  intro op hop
  simp only [mode4Ops, List.mem_append] at hop
  rcases hop with (h | h) | h
  · split at h
    · exact absurd h (List.not_mem_nil op)
    · exact fillOps_safe 0 96 black (by omega) op h
  · split_ifs at h <;>
      first
        | exact absurd h (List.not_mem_nil op)
        | (simp only [List.mem_cons, List.not_mem_nil, or_false] at h
           rcases h with rfl | rfl <;> (dsimp only [opSafe]; omega))
  · split_ifs at h <;>
      first
        | exact absurd h (List.not_mem_nil op)
        | (simp only [List.mem_cons, List.not_mem_nil, or_false] at h
           rcases h with rfl | rfl <;> (dsimp only [opSafe]; omega))

theorem mode5_safe (cfg : Config) (env : Env) (s : RingState) (he : Env.WF env) :
    ∀ op ∈ (mode5Ops cfg env s).1, opSafe op := by
  obtain ⟨hr96, _⟩ := he
  intro op hop
  simp only [mode5Ops, List.mem_cons, List.not_mem_nil, or_false] at hop
  rcases hop with rfl | rfl
  · trivial
  · exact ⟨hr96.1, by omega⟩

theorem mode6_safe (cfg : Config) (env : Env) (s : RingState) (he : Env.WF env) :
    ∀ op ∈ (mode6Ops cfg env s).1, opSafe op := by
  obtain ⟨_, _, hbA, hbB, _⟩ := he
  intro op hop
  simp only [mode6Ops, List.mem_cons, List.not_mem_nil, or_false] at hop
  rcases hop with rfl | rfl | rfl
  · trivial
  · exact ⟨hbA.1, by omega⟩
  · exact ⟨by omega, by omega⟩

theorem mode7_safe (cfg : Config) (env : Env) (s : RingState) (he : Env.WF env) :
    ∀ op ∈ (mode7Ops cfg env s).1, opSafe op := by
  obtain ⟨_, _, _, _, hjA, hjB, _⟩ := he
  intro op hop
  simp only [mode7Ops, List.mem_cons, List.mem_append, List.mem_map, List.mem_range] at hop
  rcases hop with rfl | ⟨i, _, rfl⟩ | ⟨i, _, rfl⟩
  · trivial
  · have := hjA i; exact ⟨by omega, by omega⟩
  · have := hjB i; exact ⟨by omega, by omega⟩

theorem mode8_safe (cfg : Config) (env : Env) (s : RingState) (hw : RingWF s) :
    ∀ op ∈ (mode8Ops cfg env s).1, opSafe op := by
  cases hw
  intro op hop
  simp only [mode8Ops, List.mem_cons, List.not_mem_nil, or_false] at hop
  rcases hop with rfl | rfl | rfl
  · trivial
  · exact ⟨by omega, by omega⟩
  · exact ⟨by omega, by omega⟩

theorem mode9_safe (cfg : Config) (env : Env) (s : RingState) (hw : RingWF s) :
    ∀ op ∈ (mode9Ops cfg env s).1, opSafe op := by
  cases hw
  intro op hop
  simp only [mode9Ops, List.mem_cons, List.mem_append, List.mem_map, List.mem_range] at hop
  rcases hop with rfl | ⟨i, _, rfl⟩ | ⟨i, _, rfl⟩
  · trivial
  · exact ⟨by omega, by omega⟩
  · exact ⟨by omega, by omega⟩

theorem mode10_safe (cfg : Config) (env : Env) (s : RingState) :
    ∀ op ∈ (mode10Ops cfg env s).1, opSafe op := by
  intro op hop
  simp only [mode10Ops] at hop
  split at hop
  · exact fillOps_safe 0 96 _ (by omega) op hop
  · simp only [List.mem_cons, List.not_mem_nil, or_false] at hop
    subst hop
    trivial

theorem mode11_safe (cfg : Config) (env : Env) (s : RingState) (hw : RingWF s) :
    ∀ op ∈ (mode11Ops cfg env s).1, opSafe op := by
  cases hw
  intro op hop
  simp only [mode11Ops, List.mem_cons, List.not_mem_nil, or_false] at hop
  rcases hop with rfl | rfl | rfl | rfl | rfl
  · trivial
  all_goals exact ⟨by omega, by omega⟩

theorem mode12_safe (cfg : Config) (env : Env) (s : RingState) (hw : RingWF s) :
    ∀ op ∈ (mode12Ops cfg env s).1, opSafe op := by
  cases hw
  intro op hop
  simp only [mode12Ops, List.mem_cons, List.not_mem_nil, or_false] at hop
  rcases hop with rfl | rfl | rfl
  · trivial
  all_goals exact ⟨by omega, by omega⟩

theorem mode13_safe (cfg : Config) (env : Env) (s : RingState) :
    ∀ op ∈ (mode13Ops cfg env s).1, opSafe op := by
  intro op hop
  simp only [mode13Ops, List.mem_append, List.mem_map, List.mem_range] at hop
  rcases hop with ⟨i, hi, rfl⟩ | ⟨i, hi, rfl⟩
  all_goals exact ⟨by omega, by omega⟩

theorem mode14_safe (cfg : Config) (env : Env) (s : RingState) :
    ∀ op ∈ (mode14Ops cfg env s).1, opSafe op := by
  intro op hop
  simp only [mode14Ops, List.mem_append, List.mem_map, List.mem_range] at hop
  rcases hop with ⟨i, hi, rfl⟩ | ⟨i, hi, rfl⟩
  all_goals exact ⟨by omega, by omega⟩

theorem mode15_safe (cfg : Config) (env : Env) (s : RingState) :
    ∀ op ∈ (mode15Ops cfg env s).1, opSafe op := by
  intro op hop
  simp only [mode15Ops, List.mem_append, List.mem_map, List.mem_range] at hop
  rcases hop with ⟨i, hi, rfl⟩ | ⟨i, hi, rfl⟩
  all_goals exact ⟨by omega, by omega⟩

theorem mode16_safe (cfg : Config) (env : Env) (s : RingState) (he : Env.WF env) :
    ∀ op ∈ (mode16Ops cfg env s).1, opSafe op := by
  obtain ⟨_, _, _, _, _, _, _, _, h48a, h48b, _⟩ := he
  intro op hop
  simp only [mode16Ops, List.mem_cons, List.mem_append] at hop
  rcases hop with rfl | h | h
  · trivial
  all_goals
    split_ifs at h <;>
      first
        | exact absurd h (List.not_mem_nil op)
        | (simp only [List.mem_cons, List.not_mem_nil, or_false] at h
           subst h
           exact ⟨by omega, by omega⟩)

theorem mode17_safe (cfg : Config) (env : Env) (s : RingState) (hw : RingWF s) :
    ∀ op ∈ (mode17Ops cfg env s).1, opSafe op := by
  cases hw
  intro op hop
  simp only [mode17Ops, List.mem_append, List.mem_map, List.mem_range] at hop
  rcases hop with ((h | ⟨i, hi, rfl⟩) | h) | ⟨i, hi, rfl⟩
  · exact fillOps_safe 0 48 black (by omega) op h
  · exact ⟨by omega, by omega⟩
  · exact fillOps_safe 48 48 black (by omega) op h
  · exact ⟨by omega, by omega⟩

theorem mode18_safe (cfg : Config) (env : Env) (s : RingState) :
    ∀ op ∈ (mode18Ops cfg env s).1, opSafe op := by
  intro op hop
  simp only [mode18Ops, List.mem_append, List.mem_map, List.mem_range] at hop
  rcases hop with ⟨i, hi, rfl⟩ | ⟨i, hi, rfl⟩
  all_goals exact ⟨by omega, by omega⟩

theorem mode19_safe (cfg : Config) (env : Env) (s : RingState) :
    ∀ op ∈ (mode19Ops cfg env s).1, opSafe op := by
  intro op hop
  simp only [mode19Ops] at hop
  exact fillOps_safe 0 96 _ (by omega) op hop

theorem mode20_safe (cfg : Config) (env : Env) (s : RingState) :
    ∀ op ∈ (mode20Ops cfg env s).1, opSafe op := by
  intro op hop
  simp only [mode20Ops, List.mem_append] at hop
  rcases hop with h | h
  · exact fillOps_safe 0 48 _ (by omega) op h
  · exact fillOps_safe 48 48 _ (by omega) op h

theorem mode21_safe (cfg : Config) (env : Env) (s : RingState) :
    ∀ op ∈ (mode21Ops cfg env s).1, opSafe op := by
  intro op hop
  simp only [mode21Ops] at hop
  exact fillOps_safe 0 96 _ (by omega) op hop

theorem mode22_safe (cfg : Config) (env : Env) (s : RingState) :
    ∀ op ∈ (mode22Ops cfg env s).1, opSafe op := by
  intro op hop
  simp only [mode22Ops, List.mem_append, List.mem_filterMap, List.mem_range] at hop
  rcases hop with (h | ⟨i, hi, hf⟩) | ⟨i, hi, hf⟩
  · exact fillOps_safe 0 96 black (by omega) op h
  all_goals
    split_ifs at hf <;>
      first
        | (injection hf with hf
           subst hf
           exact ⟨by omega, by omega⟩)
        | cases hf

theorem mode23_safe (cfg : Config) (env : Env) (s : RingState) :
    ∀ op ∈ (mode23Ops cfg env s).1, opSafe op := by
  intro op hop
  simp only [mode23Ops] at hop
  split at hop
  · exact fillOps_safe 0 96 _ (by omega) op hop
  · exact fillOps_safe 0 96 black (by omega) op hop

theorem mode24Bar_safe (env : Env) (g b : Nat) (hb : b < 3) :
    ∀ op ∈ mode24Bar env g b, opSafe op := by
  intro op hop
  simp only [mode24Bar, List.mem_append, List.mem_map, List.mem_range] at hop
  rcases hop with ⟨i, hi, rfl⟩ | ⟨i, hi, rfl⟩
  all_goals exact ⟨by omega, by omega⟩

theorem mode24_safe (cfg : Config) (env : Env) (s : RingState) :
    ∀ op ∈ (mode24Ops cfg env s).1, opSafe op := by
  intro op hop
  simp only [mode24Ops, List.mem_append] at hop
  rcases hop with (h | h) | h
  · exact mode24Bar_safe env _ 0 (by omega) op h
  · exact mode24Bar_safe env _ 1 (by omega) op h
  · exact mode24Bar_safe env _ 2 (by omega) op h

theorem mode25_safe (cfg : Config) (env : Env) (s : RingState) (hw : RingWF s) :
    ∀ op ∈ (mode25Ops cfg env s).1, opSafe op := by
  cases hw
  intro op hop
  simp only [mode25Ops, List.mem_cons, List.mem_append, List.mem_map, List.mem_range] at hop
  rcases hop with rfl | ⟨i, hi, rfl⟩ | ⟨i, hi, rfl⟩
  · trivial
  all_goals exact ⟨by omega, by omega⟩

theorem mode26_safe (cfg : Config) (env : Env) (s : RingState) (hw : RingWF s) :
    ∀ op ∈ (mode26Ops cfg env s).1, opSafe op := by
  cases hw
  intro op hop
  simp only [mode26Ops, List.mem_append, List.mem_map, List.mem_range] at hop
  rcases hop with ((h | h) | ⟨i, hi, rfl⟩) | ⟨i, hi, rfl⟩
  · exact fillOps_safe 0 48 _ (by omega) op h
  · exact fillOps_safe 48 48 _ (by omega) op h
  all_goals exact ⟨by omega, by omega⟩

theorem default_safe (cfg : Config) (env : Env) (s : RingState) :
    ∀ op ∈ (defaultOps cfg env s).1, opSafe op := by
  intro op hop
  simp only [defaultOps] at hop
  exact fillOps_safe 0 96 black (by omega) op hop

theorem ledRingOps_eq0 (cfg : Config) (env : Env) (s : RingState)
    (h : cfg.currentMode = 0) : ledRingOps cfg env s = mode0Ops cfg env s := by
  unfold ledRingOps
  repeat rw [if_neg (by omega)]
  rw [if_pos h]

theorem ledRingOps_eq1 (cfg : Config) (env : Env) (s : RingState)
    (h : cfg.currentMode = 1) : ledRingOps cfg env s = mode1Ops cfg env s := by
  unfold ledRingOps
  repeat rw [if_neg (by omega)]
  rw [if_pos h]

theorem ledRingOps_eq2 (cfg : Config) (env : Env) (s : RingState)
    (h : cfg.currentMode = 2) : ledRingOps cfg env s = mode2Ops cfg env s := by
  unfold ledRingOps
  repeat rw [if_neg (by omega)]
  rw [if_pos h]

theorem ledRingOps_eq3 (cfg : Config) (env : Env) (s : RingState)
    (h : cfg.currentMode = 3) : ledRingOps cfg env s = mode3Ops cfg env s := by
  unfold ledRingOps
  repeat rw [if_neg (by omega)]
  rw [if_pos h]

theorem ledRingOps_eq4 (cfg : Config) (env : Env) (s : RingState)
    (h : cfg.currentMode = 4) : ledRingOps cfg env s = mode4Ops cfg env s := by
  unfold ledRingOps
  repeat rw [if_neg (by omega)]
  rw [if_pos h]

theorem ledRingOps_eq5 (cfg : Config) (env : Env) (s : RingState)
    (h : cfg.currentMode = 5) : ledRingOps cfg env s = mode5Ops cfg env s := by
  unfold ledRingOps
  repeat rw [if_neg (by omega)]
  rw [if_pos h]

theorem ledRingOps_eq6 (cfg : Config) (env : Env) (s : RingState)
    (h : cfg.currentMode = 6) : ledRingOps cfg env s = mode6Ops cfg env s := by
  unfold ledRingOps
  repeat rw [if_neg (by omega)]
  rw [if_pos h]

theorem ledRingOps_eq7 (cfg : Config) (env : Env) (s : RingState)
    (h : cfg.currentMode = 7) : ledRingOps cfg env s = mode7Ops cfg env s := by
  unfold ledRingOps
  repeat rw [if_neg (by omega)]
  rw [if_pos h]

theorem ledRingOps_eq8 (cfg : Config) (env : Env) (s : RingState)
    (h : cfg.currentMode = 8) : ledRingOps cfg env s = mode8Ops cfg env s := by
  unfold ledRingOps
  repeat rw [if_neg (by omega)]
  rw [if_pos h]

theorem ledRingOps_eq9 (cfg : Config) (env : Env) (s : RingState)
    (h : cfg.currentMode = 9) : ledRingOps cfg env s = mode9Ops cfg env s := by
  unfold ledRingOps
  repeat rw [if_neg (by omega)]
  rw [if_pos h]

theorem ledRingOps_eq10 (cfg : Config) (env : Env) (s : RingState)
    (h : cfg.currentMode = 10) : ledRingOps cfg env s = mode10Ops cfg env s := by
  unfold ledRingOps
  repeat rw [if_neg (by omega)]
  rw [if_pos h]

theorem ledRingOps_eq11 (cfg : Config) (env : Env) (s : RingState)
    (h : cfg.currentMode = 11) : ledRingOps cfg env s = mode11Ops cfg env s := by
  unfold ledRingOps
  repeat rw [if_neg (by omega)]
  rw [if_pos h]

theorem ledRingOps_eq12 (cfg : Config) (env : Env) (s : RingState)
    (h : cfg.currentMode = 12) : ledRingOps cfg env s = mode12Ops cfg env s := by
  unfold ledRingOps
  repeat rw [if_neg (by omega)]
  rw [if_pos h]

theorem ledRingOps_eq13 (cfg : Config) (env : Env) (s : RingState)
    (h : cfg.currentMode = 13) : ledRingOps cfg env s = mode13Ops cfg env s := by
  unfold ledRingOps
  repeat rw [if_neg (by omega)]
  rw [if_pos h]

theorem ledRingOps_eq14 (cfg : Config) (env : Env) (s : RingState)
    (h : cfg.currentMode = 14) : ledRingOps cfg env s = mode14Ops cfg env s := by
  unfold ledRingOps
  repeat rw [if_neg (by omega)]
  rw [if_pos h]

theorem ledRingOps_eq15 (cfg : Config) (env : Env) (s : RingState)
    (h : cfg.currentMode = 15) : ledRingOps cfg env s = mode15Ops cfg env s := by
  unfold ledRingOps
  repeat rw [if_neg (by omega)]
  rw [if_pos h]

theorem ledRingOps_eq16 (cfg : Config) (env : Env) (s : RingState)
    (h : cfg.currentMode = 16) : ledRingOps cfg env s = mode16Ops cfg env s := by
  unfold ledRingOps
  repeat rw [if_neg (by omega)]
  rw [if_pos h]

theorem ledRingOps_eq17 (cfg : Config) (env : Env) (s : RingState)
    (h : cfg.currentMode = 17) : ledRingOps cfg env s = mode17Ops cfg env s := by
  unfold ledRingOps
  repeat rw [if_neg (by omega)]
  rw [if_pos h]

theorem ledRingOps_eq18 (cfg : Config) (env : Env) (s : RingState)
    (h : cfg.currentMode = 18) : ledRingOps cfg env s = mode18Ops cfg env s := by
  unfold ledRingOps
  repeat rw [if_neg (by omega)]
  rw [if_pos h]

theorem ledRingOps_eq19 (cfg : Config) (env : Env) (s : RingState)
    (h : cfg.currentMode = 19) : ledRingOps cfg env s = mode19Ops cfg env s := by
  unfold ledRingOps
  repeat rw [if_neg (by omega)]
  rw [if_pos h]

theorem ledRingOps_eq20 (cfg : Config) (env : Env) (s : RingState)
    (h : cfg.currentMode = 20) : ledRingOps cfg env s = mode20Ops cfg env s := by
  unfold ledRingOps
  repeat rw [if_neg (by omega)]
  rw [if_pos h]

theorem ledRingOps_eq21 (cfg : Config) (env : Env) (s : RingState)
    (h : cfg.currentMode = 21) : ledRingOps cfg env s = mode21Ops cfg env s := by
  unfold ledRingOps
  repeat rw [if_neg (by omega)]
  rw [if_pos h]

theorem ledRingOps_eq22 (cfg : Config) (env : Env) (s : RingState)
    (h : cfg.currentMode = 22) : ledRingOps cfg env s = mode22Ops cfg env s := by
  unfold ledRingOps
  repeat rw [if_neg (by omega)]
  rw [if_pos h]

theorem ledRingOps_eq23 (cfg : Config) (env : Env) (s : RingState)
    (h : cfg.currentMode = 23) : ledRingOps cfg env s = mode23Ops cfg env s := by
  unfold ledRingOps
  repeat rw [if_neg (by omega)]
  rw [if_pos h]

theorem ledRingOps_eq24 (cfg : Config) (env : Env) (s : RingState)
    (h : cfg.currentMode = 24) : ledRingOps cfg env s = mode24Ops cfg env s := by
  unfold ledRingOps
  repeat rw [if_neg (by omega)]
  rw [if_pos h]

theorem ledRingOps_eq25 (cfg : Config) (env : Env) (s : RingState)
    (h : cfg.currentMode = 25) : ledRingOps cfg env s = mode25Ops cfg env s := by
  unfold ledRingOps
  repeat rw [if_neg (by omega)]
  rw [if_pos h]

theorem ledRingOps_eq26 (cfg : Config) (env : Env) (s : RingState)
    (h : cfg.currentMode = 26) : ledRingOps cfg env s = mode26Ops cfg env s := by
  unfold ledRingOps
  repeat rw [if_neg (by omega)]
  rw [if_pos h]

theorem ledRingOps_eq_default (cfg : Config) (env : Env) (s : RingState)
    (h : cfg.currentMode < 0 ∨ 26 < cfg.currentMode) :
    ledRingOps cfg env s = defaultOps cfg env s := by
  unfold ledRingOps
  repeat rw [if_neg (by omega)]

/-- Every operation issued by one loop iteration targets an index in
`[0, 96)`, for every mode (the `default` branch included). -/
theorem ledRingOps_safe (cfg : Config) (env : Env) (s : RingState)
    (he : Env.WF env) (hw : RingWF s) : ∀ op ∈ (ledRingOps cfg env s).1, opSafe op := by
  by_cases h0 : cfg.currentMode = 0
  · simp only [ledRingOps_eq0 cfg env s h0]
    exact mode0_safe cfg env s
  by_cases h1 : cfg.currentMode = 1
  · simp only [ledRingOps_eq1 cfg env s h1]
    exact mode1_safe cfg env s
  by_cases h2 : cfg.currentMode = 2
  · simp only [ledRingOps_eq2 cfg env s h2]
    exact mode2_safe cfg env s
  by_cases h3 : cfg.currentMode = 3
  · simp only [ledRingOps_eq3 cfg env s h3]
    exact mode3_safe cfg env s
  by_cases h4 : cfg.currentMode = 4
  · simp only [ledRingOps_eq4 cfg env s h4]
    exact mode4_safe cfg env s hw
  by_cases h5 : cfg.currentMode = 5
  · simp only [ledRingOps_eq5 cfg env s h5]
    exact mode5_safe cfg env s he
  by_cases h6 : cfg.currentMode = 6
  · simp only [ledRingOps_eq6 cfg env s h6]
    exact mode6_safe cfg env s he
  by_cases h7 : cfg.currentMode = 7
  · simp only [ledRingOps_eq7 cfg env s h7]
    exact mode7_safe cfg env s he
  by_cases h8 : cfg.currentMode = 8
  · simp only [ledRingOps_eq8 cfg env s h8]
    exact mode8_safe cfg env s hw
  by_cases h9 : cfg.currentMode = 9
  · simp only [ledRingOps_eq9 cfg env s h9]
    exact mode9_safe cfg env s hw
  by_cases h10 : cfg.currentMode = 10
  · simp only [ledRingOps_eq10 cfg env s h10]
    exact mode10_safe cfg env s
  by_cases h11 : cfg.currentMode = 11
  · simp only [ledRingOps_eq11 cfg env s h11]
    exact mode11_safe cfg env s hw
  by_cases h12 : cfg.currentMode = 12
  · simp only [ledRingOps_eq12 cfg env s h12]
    exact mode12_safe cfg env s hw
  by_cases h13 : cfg.currentMode = 13
  · simp only [ledRingOps_eq13 cfg env s h13]
    exact mode13_safe cfg env s
  by_cases h14 : cfg.currentMode = 14
  · simp only [ledRingOps_eq14 cfg env s h14]
    exact mode14_safe cfg env s
  by_cases h15 : cfg.currentMode = 15
  · simp only [ledRingOps_eq15 cfg env s h15]
    exact mode15_safe cfg env s
  by_cases h16 : cfg.currentMode = 16
  · simp only [ledRingOps_eq16 cfg env s h16]
    exact mode16_safe cfg env s he
  by_cases h17 : cfg.currentMode = 17
  · simp only [ledRingOps_eq17 cfg env s h17]
    exact mode17_safe cfg env s hw
  by_cases h18 : cfg.currentMode = 18
  · simp only [ledRingOps_eq18 cfg env s h18]
    exact mode18_safe cfg env s
  by_cases h19 : cfg.currentMode = 19
  · simp only [ledRingOps_eq19 cfg env s h19]
    exact mode19_safe cfg env s
  by_cases h20 : cfg.currentMode = 20
  · simp only [ledRingOps_eq20 cfg env s h20]
    exact mode20_safe cfg env s
  by_cases h21 : cfg.currentMode = 21
  · simp only [ledRingOps_eq21 cfg env s h21]
    exact mode21_safe cfg env s
  by_cases h22 : cfg.currentMode = 22
  · simp only [ledRingOps_eq22 cfg env s h22]
    exact mode22_safe cfg env s
  by_cases h23 : cfg.currentMode = 23
  · simp only [ledRingOps_eq23 cfg env s h23]
    exact mode23_safe cfg env s
  by_cases h24 : cfg.currentMode = 24
  · simp only [ledRingOps_eq24 cfg env s h24]
    exact mode24_safe cfg env s
  by_cases h25 : cfg.currentMode = 25
  · simp only [ledRingOps_eq25 cfg env s h25]
    exact mode25_safe cfg env s hw
  by_cases h26 : cfg.currentMode = 26
  · simp only [ledRingOps_eq26 cfg env s h26]
    exact mode26_safe cfg env s hw
  simp only [ledRingOps_eq_default cfg env s (by omega)]
  exact default_safe cfg env s

theorem mode0_wf (cfg : Config) (env : Env) (s : RingState)
    (he : Env.WF env) (hw : RingWF s) : RingWF (mode0Ops cfg env s).2.1 := by
  obtain ⟨hr96, hrhue, hbA, hbB, hjA, hjB, h8a, h8b, h48a, h48b, hnoise, hsine, hpulse, hhA, hhB⟩ := he
  cases hw
  constructor <;>
    (dsimp only [mode0Ops]
     try split_ifs
     all_goals try dsimp only
     all_goals (first | assumption | omega | exact Or.inl rfl | exact Or.inr rfl))

theorem mode1_wf (cfg : Config) (env : Env) (s : RingState)
    (he : Env.WF env) (hw : RingWF s) : RingWF (mode1Ops cfg env s).2.1 := by
  obtain ⟨hr96, hrhue, hbA, hbB, hjA, hjB, h8a, h8b, h48a, h48b, hnoise, hsine, hpulse, hhA, hhB⟩ := he
  cases hw
  constructor <;>
    (dsimp only [mode1Ops]
     try split_ifs
     all_goals try dsimp only
     all_goals (first | assumption | omega | exact Or.inl rfl | exact Or.inr rfl))

theorem mode2_wf (cfg : Config) (env : Env) (s : RingState)
    (he : Env.WF env) (hw : RingWF s) : RingWF (mode2Ops cfg env s).2.1 := by
  obtain ⟨hr96, hrhue, hbA, hbB, hjA, hjB, h8a, h8b, h48a, h48b, hnoise, hsine, hpulse, hhA, hhB⟩ := he
  cases hw
  constructor <;>
    (dsimp only [mode2Ops]
     try split_ifs
     all_goals try dsimp only
     all_goals (first | assumption | omega | exact Or.inl rfl | exact Or.inr rfl))

theorem mode3_wf (cfg : Config) (env : Env) (s : RingState)
    (he : Env.WF env) (hw : RingWF s) : RingWF (mode3Ops cfg env s).2.1 := by
  obtain ⟨hr96, hrhue, hbA, hbB, hjA, hjB, h8a, h8b, h48a, h48b, hnoise, hsine, hpulse, hhA, hhB⟩ := he
  cases hw
  constructor <;>
    (dsimp only [mode3Ops]
     try split_ifs
     all_goals try dsimp only
     all_goals (first | assumption | omega | exact Or.inl rfl | exact Or.inr rfl))

theorem mode4_wf (cfg : Config) (env : Env) (s : RingState)
    (he : Env.WF env) (hw : RingWF s) : RingWF (mode4Ops cfg env s).2.1 := by
  cases hw
  dsimp only [mode4Ops]
  split_ifs <;>
    (constructor <;>
      (try dsimp only) <;>
      (first | assumption | omega | exact Or.inl rfl | exact Or.inr rfl))

theorem mode5_wf (cfg : Config) (env : Env) (s : RingState)
    (he : Env.WF env) (hw : RingWF s) : RingWF (mode5Ops cfg env s).2.1 := by
  obtain ⟨hr96, hrhue, hbA, hbB, hjA, hjB, h8a, h8b, h48a, h48b, hnoise, hsine, hpulse, hhA, hhB⟩ := he
  cases hw
  constructor <;>
    (dsimp only [mode5Ops]
     try split_ifs
     all_goals try dsimp only
     all_goals (first | assumption | omega | exact Or.inl rfl | exact Or.inr rfl))

theorem mode6_wf (cfg : Config) (env : Env) (s : RingState)
    (he : Env.WF env) (hw : RingWF s) : RingWF (mode6Ops cfg env s).2.1 := by
  obtain ⟨hr96, hrhue, hbA, hbB, hjA, hjB, h8a, h8b, h48a, h48b, hnoise, hsine, hpulse, hhA, hhB⟩ := he
  cases hw
  constructor <;>
    (dsimp only [mode6Ops]
     try split_ifs
     all_goals try dsimp only
     all_goals (first | assumption | omega | exact Or.inl rfl | exact Or.inr rfl))

theorem mode7_wf (cfg : Config) (env : Env) (s : RingState)
    (he : Env.WF env) (hw : RingWF s) : RingWF (mode7Ops cfg env s).2.1 := by
  obtain ⟨hr96, hrhue, hbA, hbB, hjA, hjB, h8a, h8b, h48a, h48b, hnoise, hsine, hpulse, hhA, hhB⟩ := he
  cases hw
  constructor <;>
    (dsimp only [mode7Ops]
     try split_ifs
     all_goals try dsimp only
     all_goals (first | assumption | omega | exact Or.inl rfl | exact Or.inr rfl))

theorem mode8_wf (cfg : Config) (env : Env) (s : RingState)
    (he : Env.WF env) (hw : RingWF s) : RingWF (mode8Ops cfg env s).2.1 := by
  obtain ⟨hr96, hrhue, hbA, hbB, hjA, hjB, h8a, h8b, h48a, h48b, hnoise, hsine, hpulse, hhA, hhB⟩ := he
  cases hw
  constructor <;>
    (dsimp only [mode8Ops]
     try split_ifs
     all_goals try dsimp only
     all_goals (first | assumption | omega | exact Or.inl rfl | exact Or.inr rfl))

theorem mode9_wf (cfg : Config) (env : Env) (s : RingState)
    (he : Env.WF env) (hw : RingWF s) : RingWF (mode9Ops cfg env s).2.1 := by
  obtain ⟨hr96, hrhue, hbA, hbB, hjA, hjB, h8a, h8b, h48a, h48b, hnoise, hsine, hpulse, hhA, hhB⟩ := he
  cases hw
  constructor <;>
    (dsimp only [mode9Ops]
     try split_ifs
     all_goals try dsimp only
     all_goals (first | assumption | omega | exact Or.inl rfl | exact Or.inr rfl))

theorem mode10_wf (cfg : Config) (env : Env) (s : RingState)
    (he : Env.WF env) (hw : RingWF s) : RingWF (mode10Ops cfg env s).2.1 := by
  obtain ⟨hr96, hrhue, hbA, hbB, hjA, hjB, h8a, h8b, h48a, h48b, hnoise, hsine, hpulse, hhA, hhB⟩ := he
  cases hw
  constructor <;>
    (dsimp only [mode10Ops]
     try split_ifs
     all_goals try dsimp only
     all_goals (first | assumption | omega | exact Or.inl rfl | exact Or.inr rfl))

theorem mode11_wf (cfg : Config) (env : Env) (s : RingState)
    (he : Env.WF env) (hw : RingWF s) : RingWF (mode11Ops cfg env s).2.1 := by
  obtain ⟨hr96, hrhue, hbA, hbB, hjA, hjB, h8a, h8b, h48a, h48b, hnoise, hsine, hpulse, hhA, hhB⟩ := he
  cases hw
  constructor <;>
    (dsimp only [mode11Ops]
     try split_ifs
     all_goals try dsimp only
     all_goals (first | assumption | omega | exact Or.inl rfl | exact Or.inr rfl))

theorem mode12_wf (cfg : Config) (env : Env) (s : RingState)
    (he : Env.WF env) (hw : RingWF s) : RingWF (mode12Ops cfg env s).2.1 := by
  obtain ⟨hr96, hrhue, hbA, hbB, hjA, hjB, h8a, h8b, h48a, h48b, hnoise, hsine, hpulse, hhA, hhB⟩ := he
  cases hw
  constructor <;>
    (dsimp only [mode12Ops]
     try split_ifs
     all_goals try dsimp only
     all_goals (first | assumption | omega | exact Or.inl rfl | exact Or.inr rfl))

theorem mode13_wf (cfg : Config) (env : Env) (s : RingState)
    (he : Env.WF env) (hw : RingWF s) : RingWF (mode13Ops cfg env s).2.1 := by
  obtain ⟨hr96, hrhue, hbA, hbB, hjA, hjB, h8a, h8b, h48a, h48b, hnoise, hsine, hpulse, hhA, hhB⟩ := he
  cases hw
  constructor <;>
    (dsimp only [mode13Ops]
     try split_ifs
     all_goals try dsimp only
     all_goals (first | assumption | omega | exact Or.inl rfl | exact Or.inr rfl))

theorem mode14_wf (cfg : Config) (env : Env) (s : RingState)
    (he : Env.WF env) (hw : RingWF s) : RingWF (mode14Ops cfg env s).2.1 := by
  obtain ⟨hr96, hrhue, hbA, hbB, hjA, hjB, h8a, h8b, h48a, h48b, hnoise, hsine, hpulse, hhA, hhB⟩ := he
  cases hw
  constructor <;>
    (dsimp only [mode14Ops]
     try split_ifs
     all_goals try dsimp only
     all_goals (first | assumption | omega | exact Or.inl rfl | exact Or.inr rfl))

theorem mode15_wf (cfg : Config) (env : Env) (s : RingState)
    (he : Env.WF env) (hw : RingWF s) : RingWF (mode15Ops cfg env s).2.1 := by
  obtain ⟨hr96, hrhue, hbA, hbB, hjA, hjB, h8a, h8b, h48a, h48b, hnoise, hsine, hpulse, hhA, hhB⟩ := he
  cases hw
  constructor <;>
    (dsimp only [mode15Ops]
     try split_ifs
     all_goals try dsimp only
     all_goals (first | assumption | omega | exact Or.inl rfl | exact Or.inr rfl))

theorem mode16_wf (cfg : Config) (env : Env) (s : RingState)
    (he : Env.WF env) (hw : RingWF s) : RingWF (mode16Ops cfg env s).2.1 := by
  obtain ⟨hr96, hrhue, hbA, hbB, hjA, hjB, h8a, h8b, h48a, h48b, hnoise, hsine, hpulse, hhA, hhB⟩ := he
  cases hw
  constructor <;>
    (dsimp only [mode16Ops]
     try split_ifs
     all_goals try dsimp only
     all_goals (first | assumption | omega | exact Or.inl rfl | exact Or.inr rfl))

theorem mode17_wf (cfg : Config) (env : Env) (s : RingState)
    (he : Env.WF env) (hw : RingWF s) : RingWF (mode17Ops cfg env s).2.1 := by
  obtain ⟨hr96, hrhue, hbA, hbB, hjA, hjB, h8a, h8b, h48a, h48b, hnoise, hsine, hpulse, hhA, hhB⟩ := he
  cases hw
  constructor <;>
    (dsimp only [mode17Ops]
     try split_ifs
     all_goals try dsimp only
     all_goals (first | assumption | omega | exact Or.inl rfl | exact Or.inr rfl))

theorem mode18_wf (cfg : Config) (env : Env) (s : RingState)
    (he : Env.WF env) (hw : RingWF s) : RingWF (mode18Ops cfg env s).2.1 := by
  obtain ⟨hr96, hrhue, hbA, hbB, hjA, hjB, h8a, h8b, h48a, h48b, hnoise, hsine, hpulse, hhA, hhB⟩ := he
  cases hw
  constructor <;>
    (dsimp only [mode18Ops]
     try split_ifs
     all_goals try dsimp only
     all_goals (first | assumption | omega | exact Or.inl rfl | exact Or.inr rfl))

theorem mode19_wf (cfg : Config) (env : Env) (s : RingState)
    (he : Env.WF env) (hw : RingWF s) : RingWF (mode19Ops cfg env s).2.1 := by
  obtain ⟨hr96, hrhue, hbA, hbB, hjA, hjB, h8a, h8b, h48a, h48b, hnoise, hsine, hpulse, hhA, hhB⟩ := he
  cases hw
  constructor <;>
    (dsimp only [mode19Ops]
     try split_ifs
     all_goals try dsimp only
     all_goals (first | assumption | omega | exact Or.inl rfl | exact Or.inr rfl))

theorem mode20_wf (cfg : Config) (env : Env) (s : RingState)
    (he : Env.WF env) (hw : RingWF s) : RingWF (mode20Ops cfg env s).2.1 := by
  obtain ⟨hr96, hrhue, hbA, hbB, hjA, hjB, h8a, h8b, h48a, h48b, hnoise, hsine, hpulse, hhA, hhB⟩ := he
  cases hw
  constructor <;>
    (dsimp only [mode20Ops]
     try split_ifs
     all_goals try dsimp only
     all_goals (first | assumption | omega | exact Or.inl rfl | exact Or.inr rfl))

theorem mode21_wf (cfg : Config) (env : Env) (s : RingState)
    (he : Env.WF env) (hw : RingWF s) : RingWF (mode21Ops cfg env s).2.1 := by
  obtain ⟨hr96, hrhue, hbA, hbB, hjA, hjB, h8a, h8b, h48a, h48b, hnoise, hsine, hpulse, hhA, hhB⟩ := he
  cases hw
  constructor <;>
    (dsimp only [mode21Ops]
     try split_ifs
     all_goals try dsimp only
     all_goals (first | assumption | omega | exact Or.inl rfl | exact Or.inr rfl))

theorem mode22_wf (cfg : Config) (env : Env) (s : RingState)
    (he : Env.WF env) (hw : RingWF s) : RingWF (mode22Ops cfg env s).2.1 := by
  obtain ⟨hr96, hrhue, hbA, hbB, hjA, hjB, h8a, h8b, h48a, h48b, hnoise, hsine, hpulse, hhA, hhB⟩ := he
  cases hw
  constructor <;>
    (dsimp only [mode22Ops]
     try split_ifs
     all_goals try dsimp only
     all_goals (first | assumption | omega | exact Or.inl rfl | exact Or.inr rfl))

theorem mode23_wf (cfg : Config) (env : Env) (s : RingState)
    (he : Env.WF env) (hw : RingWF s) : RingWF (mode23Ops cfg env s).2.1 := by
  obtain ⟨hr96, hrhue, hbA, hbB, hjA, hjB, h8a, h8b, h48a, h48b, hnoise, hsine, hpulse, hhA, hhB⟩ := he
  cases hw
  constructor <;>
    (dsimp only [mode23Ops]
     try split_ifs
     all_goals try dsimp only
     all_goals (first | assumption | omega | exact Or.inl rfl | exact Or.inr rfl))

theorem mode24_wf (cfg : Config) (env : Env) (s : RingState)
    (he : Env.WF env) (hw : RingWF s) : RingWF (mode24Ops cfg env s).2.1 := by
  obtain ⟨hr96, hrhue, hbA, hbB, hjA, hjB, h8a, h8b, h48a, h48b, hnoise, hsine, hpulse, hhA, hhB⟩ := he
  cases hw
  constructor <;>
    (dsimp only [mode24Ops]
     try split_ifs
     all_goals try dsimp only
     all_goals (first | assumption | omega | exact Or.inl rfl | exact Or.inr rfl))

theorem mode25_wf (cfg : Config) (env : Env) (s : RingState)
    (he : Env.WF env) (hw : RingWF s) : RingWF (mode25Ops cfg env s).2.1 := by
  obtain ⟨hr96, hrhue, hbA, hbB, hjA, hjB, h8a, h8b, h48a, h48b, hnoise, hsine, hpulse, hhA, hhB⟩ := he
  cases hw
  constructor <;>
    (dsimp only [mode25Ops]
     try split_ifs
     all_goals try dsimp only
     all_goals (first | assumption | omega | exact Or.inl rfl | exact Or.inr rfl))

theorem mode26_wf (cfg : Config) (env : Env) (s : RingState)
    (he : Env.WF env) (hw : RingWF s) : RingWF (mode26Ops cfg env s).2.1 := by
  obtain ⟨hr96, hrhue, hbA, hbB, hjA, hjB, h8a, h8b, h48a, h48b, hnoise, hsine, hpulse, hhA, hhB⟩ := he
  cases hw
  constructor <;>
    (dsimp only [mode26Ops]
     try split_ifs
     all_goals try dsimp only
     all_goals (first | assumption | omega | exact Or.inl rfl | exact Or.inr rfl))

theorem default_wf (cfg : Config) (env : Env) (s : RingState)
    (he : Env.WF env) (hw : RingWF s) : RingWF (defaultOps cfg env s).2.1 := by
  obtain ⟨hr96, hrhue, hbA, hbB, hjA, hjB, h8a, h8b, h48a, h48b, hnoise, hsine, hpulse, hhA, hhB⟩ := he
  cases hw
  constructor <;>
    (dsimp only [defaultOps]
     try split_ifs
     all_goals try dsimp only
     all_goals (first | assumption | omega | exact Or.inl rfl | exact Or.inr rfl))

/-- The statics invariant is preserved by every loop iteration (with
in-range primitive draws), whatever the active mode. -/
theorem ledRingOps_wf (cfg : Config) (env : Env) (s : RingState)
    (he : Env.WF env) (hw : RingWF s) : RingWF (ledRingOps cfg env s).2.1 := by
  by_cases h0 : cfg.currentMode = 0
  · simp only [ledRingOps_eq0 cfg env s h0]
    exact mode0_wf cfg env s he hw
  by_cases h1 : cfg.currentMode = 1
  · simp only [ledRingOps_eq1 cfg env s h1]
    exact mode1_wf cfg env s he hw
  by_cases h2 : cfg.currentMode = 2
  · simp only [ledRingOps_eq2 cfg env s h2]
    exact mode2_wf cfg env s he hw
  by_cases h3 : cfg.currentMode = 3
  · simp only [ledRingOps_eq3 cfg env s h3]
    exact mode3_wf cfg env s he hw
  by_cases h4 : cfg.currentMode = 4
  · simp only [ledRingOps_eq4 cfg env s h4]
    exact mode4_wf cfg env s he hw
  by_cases h5 : cfg.currentMode = 5
  · simp only [ledRingOps_eq5 cfg env s h5]
    exact mode5_wf cfg env s he hw
  by_cases h6 : cfg.currentMode = 6
  · simp only [ledRingOps_eq6 cfg env s h6]
    exact mode6_wf cfg env s he hw
  by_cases h7 : cfg.currentMode = 7
  · simp only [ledRingOps_eq7 cfg env s h7]
    exact mode7_wf cfg env s he hw
  by_cases h8 : cfg.currentMode = 8
  · simp only [ledRingOps_eq8 cfg env s h8]
    exact mode8_wf cfg env s he hw
  by_cases h9 : cfg.currentMode = 9
  · simp only [ledRingOps_eq9 cfg env s h9]
    exact mode9_wf cfg env s he hw
  by_cases h10 : cfg.currentMode = 10
  · simp only [ledRingOps_eq10 cfg env s h10]
    exact mode10_wf cfg env s he hw
  by_cases h11 : cfg.currentMode = 11
  · simp only [ledRingOps_eq11 cfg env s h11]
    exact mode11_wf cfg env s he hw
  by_cases h12 : cfg.currentMode = 12
  · simp only [ledRingOps_eq12 cfg env s h12]
    exact mode12_wf cfg env s he hw
  by_cases h13 : cfg.currentMode = 13
  · simp only [ledRingOps_eq13 cfg env s h13]
    exact mode13_wf cfg env s he hw
  by_cases h14 : cfg.currentMode = 14
  · simp only [ledRingOps_eq14 cfg env s h14]
    exact mode14_wf cfg env s he hw
  by_cases h15 : cfg.currentMode = 15
  · simp only [ledRingOps_eq15 cfg env s h15]
    exact mode15_wf cfg env s he hw
  by_cases h16 : cfg.currentMode = 16
  · simp only [ledRingOps_eq16 cfg env s h16]
    exact mode16_wf cfg env s he hw
  by_cases h17 : cfg.currentMode = 17
  · simp only [ledRingOps_eq17 cfg env s h17]
    exact mode17_wf cfg env s he hw
  by_cases h18 : cfg.currentMode = 18
  · simp only [ledRingOps_eq18 cfg env s h18]
    exact mode18_wf cfg env s he hw
  by_cases h19 : cfg.currentMode = 19
  · simp only [ledRingOps_eq19 cfg env s h19]
    exact mode19_wf cfg env s he hw
  by_cases h20 : cfg.currentMode = 20
  · simp only [ledRingOps_eq20 cfg env s h20]
    exact mode20_wf cfg env s he hw
  by_cases h21 : cfg.currentMode = 21
  · simp only [ledRingOps_eq21 cfg env s h21]
    exact mode21_wf cfg env s he hw
  by_cases h22 : cfg.currentMode = 22
  · simp only [ledRingOps_eq22 cfg env s h22]
    exact mode22_wf cfg env s he hw
  by_cases h23 : cfg.currentMode = 23
  · simp only [ledRingOps_eq23 cfg env s h23]
    exact mode23_wf cfg env s he hw
  by_cases h24 : cfg.currentMode = 24
  · simp only [ledRingOps_eq24 cfg env s h24]
    exact mode24_wf cfg env s he hw
  by_cases h25 : cfg.currentMode = 25
  · simp only [ledRingOps_eq25 cfg env s h25]
    exact mode25_wf cfg env s he hw
  by_cases h26 : cfg.currentMode = 26
  · simp only [ledRingOps_eq26 cfg env s h26]
    exact mode26_wf cfg env s he hw
  simp only [ledRingOps_eq_default cfg env s (by omega)]
  exact default_wf cfg env s he hw

/-- One loop iteration always succeeds on a 96-pixel buffer: every `leds`
index is in bounds and the buffer stays 96 pixels. -/
theorem frame_total (cfg : Config) (env : Env) (s : RingState) (b : Buffer)
    (he : Env.WF env) (hw : RingWF s) (hb : b.length = 96) :
    ∃ b2, frame cfg env s b
        = some (b2, (ledRingOps cfg env s).2.1, (ledRingOps cfg env s).2.2) ∧
      b2.length = 96 := by
  obtain ⟨b2, h2, hl⟩ := applyOps_some hb (ledRingOps_safe cfg env s he hw)
  exact ⟨b2, by simp only [frame, h2], hl⟩

/-- A successful iteration returns the dispatch's state and delay, and the
buffer produced by applying the dispatch's operations. -/
theorem frame_inv {cfg : Config} {env : Env} {s : RingState} {b : Buffer}
    {out : Buffer × RingState × Nat} (hf : frame cfg env s b = some out) :
    out.2.1 = (ledRingOps cfg env s).2.1 ∧ out.2.2 = (ledRingOps cfg env s).2.2 ∧
      applyOps (ledRingOps cfg env s).1 b = some out.1 := by
  unfold frame at hf
  cases h : applyOps (ledRingOps cfg env s).1 b with
  | none => rw [h] at hf; cases hf
  | some b2 =>
      rw [h] at hf
      cases hf
      refine ⟨rfl, rfl, ?_⟩
      rfl

theorem handleSet_range (ma mb : Option Int) (c : Config)
    (h : 0 ≤ c.currentMode ∧ c.currentMode < 27 ∧
      0 ≤ c.ringBrightness ∧ c.ringBrightness ≤ 255) :
    0 ≤ (handleSet ma mb c).currentMode ∧ (handleSet ma mb c).currentMode < 27 ∧
      0 ≤ (handleSet ma mb c).ringBrightness ∧ (handleSet ma mb c).ringBrightness ≤ 255 := by
  cases ma <;> cases mb <;>
    (simp only [handleSet, numModes]
     try split_ifs
     all_goals try dsimp only
     all_goals omega)

theorem modeInc_range (c : Config)
    (h : 0 ≤ c.currentMode ∧ c.currentMode < 27 ∧
      0 ≤ c.ringBrightness ∧ c.ringBrightness ≤ 255) :
    0 ≤ (modeInc c).currentMode ∧ (modeInc c).currentMode < 27 ∧
      0 ≤ (modeInc c).ringBrightness ∧ (modeInc c).ringBrightness ≤ 255 := by
  simp only [modeInc, numModes]
  omega

theorem modeDec_range (c : Config)
    (h : 0 ≤ c.currentMode ∧ c.currentMode < 27 ∧
      0 ≤ c.ringBrightness ∧ c.ringBrightness ≤ 255) :
    0 ≤ (modeDec c).currentMode ∧ (modeDec c).currentMode < 27 ∧
      0 ≤ (modeDec c).ringBrightness ∧ (modeDec c).ringBrightness ≤ 255 := by
  simp only [modeDec, numModes]
  split_ifs <;> omega

theorem brightInc_range (c : Config)
    (h : 0 ≤ c.currentMode ∧ c.currentMode < 27 ∧
      0 ≤ c.ringBrightness ∧ c.ringBrightness ≤ 255) :
    0 ≤ (brightInc c).currentMode ∧ (brightInc c).currentMode < 27 ∧
      0 ≤ (brightInc c).ringBrightness ∧ (brightInc c).ringBrightness ≤ 255 := by
  simp only [brightInc]
  split_ifs <;> omega

theorem brightDec_range (c : Config)
    (h : 0 ≤ c.currentMode ∧ c.currentMode < 27 ∧
      0 ≤ c.ringBrightness ∧ c.ringBrightness ≤ 255) :
    0 ≤ (brightDec c).currentMode ∧ (brightDec c).currentMode < 27 ∧
      0 ≤ (brightDec c).ringBrightness ∧ (brightDec c).ringBrightness ≤ 255 := by
  simp only [brightDec]
  split_ifs <;> omega

/-- Reachable states of the whole firmware: the task starts at mode 0,
brightness 50, zeroed statics (with the two `random(RING_LEDS)` shock
centers) and a zeroed `leds` array; it evolves by loop iterations with
in-range primitive draws, and by the concurrent config writers (the `/set`
endpoint and the four buttons), which can fire between any two frames. -/
inductive Reach : Config → RingState → Buffer → Prop where
  | init (c1 c2 : Int) (h1 : 0 ≤ c1) (h2 : c1 < 48) (h3 : 0 ≤ c2) (h4 : c2 < 48) :
      Reach cfg0 (ringInit c1 c2) buf0
  | step {cfg : Config} {s : RingState} {b : Buffer} {env : Env} {b2 : Buffer}
      {s2 : RingState} {d : Nat} (hr : Reach cfg s b) (he : Env.WF env)
      (hf : frame cfg env s b = some (b2, s2, d)) : Reach cfg s2 b2
  | web {cfg : Config} {s : RingState} {b : Buffer} (ma mb : Option Int)
      (hr : Reach cfg s b) : Reach (handleSet ma mb cfg) s b
  | btnMI {cfg : Config} {s : RingState} {b : Buffer} (hr : Reach cfg s b) :
      Reach (modeInc cfg) s b
  | btnMD {cfg : Config} {s : RingState} {b : Buffer} (hr : Reach cfg s b) :
      Reach (modeDec cfg) s b
  | btnBI {cfg : Config} {s : RingState} {b : Buffer} (hr : Reach cfg s b) :
      Reach (brightInc cfg) s b
  | btnBD {cfg : Config} {s : RingState} {b : Buffer} (hr : Reach cfg s b) :
      Reach (brightDec cfg) s b

/-- The global invariant: in every reachable state the statics satisfy
`RingWF`, the buffer has 96 pixels, and the config is in range. -/
theorem reach_inv {cfg : Config} {s : RingState} {b : Buffer} (h : Reach cfg s b) :
    RingWF s ∧ b.length = 96 ∧
      (0 ≤ cfg.currentMode ∧ cfg.currentMode < 27 ∧
        0 ≤ cfg.ringBrightness ∧ cfg.ringBrightness ≤ 255) := by
  induction h with
  | init c1 c2 h1 h2 h3 h4 =>
      exact ⟨ringInit_wf c1 c2 h1 h2 h3 h4, by simp [buf0], by decide, by decide,
        by decide, by decide⟩
  | step hr he hf ih =>
      obtain ⟨hw, hb, hc⟩ := ih
      obtain ⟨hs2, _, happ⟩ := frame_inv hf
      dsimp only at hs2 happ
      refine ⟨?_, ?_, hc⟩
      · rw [hs2]
        exact ledRingOps_wf _ _ _ he hw
      · exact (applyOps_length happ).trans hb
  | web ma mb hr ih => exact ⟨ih.1, ih.2.1, handleSet_range ma mb _ ih.2.2⟩
  | btnMI hr ih => exact ⟨ih.1, ih.2.1, modeInc_range _ ih.2.2⟩
  | btnMD hr ih => exact ⟨ih.1, ih.2.1, modeDec_range _ ih.2.2⟩
  | btnBI hr ih => exact ⟨ih.1, ih.2.1, brightInc_range _ ih.2.2⟩
  | btnBD hr ih => exact ⟨ih.1, ih.2.1, brightDec_range _ ih.2.2⟩

/-- C5: EngineConfig range invariant — in every reachable state (after any
interleaving of frames, `/set` requests and button presses) the mode index
is in `[0, 27)` and the brightness in `[0, 255]`; no out-of-range value is
ever stored. -/
theorem engineConfig_in_range (cfg : Config) (s : RingState) (b : Buffer)
    (h : Reach cfg s b) :
    0 ≤ cfg.currentMode ∧ cfg.currentMode < 27 ∧
      0 ≤ cfg.ringBrightness ∧ cfg.ringBrightness ≤ 255 :=
  (reach_inv h).2.2

/-- Witness for `engineConfig_in_range` at the initial state. -/
theorem engineConfig_in_range_witness :
    0 ≤ cfg0.currentMode ∧ cfg0.currentMode < 27 ∧
      0 ≤ cfg0.ringBrightness ∧ cfg0.ringBrightness ≤ 255 :=
  engineConfig_in_range cfg0 (ringInit 0 0) buf0
    (Reach.init 0 0 (by decide) (by decide) (by decide) (by decide))

/-- A fixed in-range environment: every randomness/oscillator primitive
returns the least value of its range. -/
def env0 : Env :=
  { rand96 := 0, randHue := 0, beatA := 0, beatB := 0,
    jugA := fun _ => 0, jugB := fun _ => 0, rand8a := 0, rand8b := 0,
    rand48a := 0, rand48b := 0, noise := fun _ => 0, sine := fun _ => 0,
    pulse := 220, heightA := fun _ => 1, heightB := fun _ => 1 }

theorem env0_wf : Env.WF env0 :=
  ⟨⟨by decide, by decide⟩, by decide, ⟨by decide, by decide⟩, ⟨by decide, by decide⟩,
   fun _ => (⟨by norm_num, by norm_num⟩ : (0 : Int) ≤ 0 ∧ (0 : Int) ≤ 47),
   fun _ => (⟨by norm_num, by norm_num⟩ : (0 : Int) ≤ 0 ∧ (0 : Int) ≤ 47),
   by decide, by decide, ⟨by decide, by decide⟩, ⟨by decide, by decide⟩,
   fun _ => (by norm_num : (0 : Nat) < 256), fun _ => (by norm_num : (0 : Nat) < 256),
   ⟨by decide, by decide⟩,
   fun _ => (⟨by norm_num, by norm_num⟩ : (1 : Nat) ≤ 1 ∧ (1 : Nat) ≤ 16),
   fun _ => (⟨by norm_num, by norm_num⟩ : (1 : Nat) ≤ 1 ∧ (1 : Nat) ≤ 16)⟩

/-- C8: for every valid mode index 0..26 and every reachable state, one loop
iteration succeeds — every computed `leds` index is in `[0, 96)` — and
leaves a fully defined 96-pixel buffer. -/
theorem render_all_modes_in_bounds (cfg : Config) (env : Env) (s : RingState)
    (b : Buffer) (hr : Reach cfg s b) (he : Env.WF env)
    (_h0 : 0 ≤ cfg.currentMode) (_h1 : cfg.currentMode < 27) :
    ∃ b2 s2 d, frame cfg env s b = some (b2, s2, d) ∧ b2.length = 96 := by
  obtain ⟨hw, hb, _⟩ := reach_inv hr
  obtain ⟨b2, hf, hl⟩ := frame_total cfg env s b he hw hb
  exact ⟨b2, _, _, hf, hl⟩

/-- Witness for `render_all_modes_in_bounds` at the initial state. -/
theorem render_all_modes_in_bounds_witness :
    ∃ b2 s2 d, frame cfg0 env0 (ringInit 0 0) buf0 = some (b2, s2, d) ∧
      b2.length = 96 :=
  render_all_modes_in_bounds cfg0 env0 (ringInit 0 0) buf0
    (Reach.init 0 0 (by decide) (by decide) (by decide) (by decide))
    env0_wf (by decide) (by decide)

/-- C9: for every mode index outside 0..26, the `default` branch fills the
whole 96-pixel buffer with black, leaves the statics unchanged and returns
the slow 50 ms refresh delay. -/
theorem render_unknown_mode_black (cfg : Config) (env : Env) (s : RingState)
    (b : Buffer) (h : cfg.currentMode < 0 ∨ 26 < cfg.currentMode)
    (hb : b.length = 96) :
    frame cfg env s b = some (List.replicate 96 black, s, 50) := by
  have hops : ledRingOps cfg env s = defaultOps cfg env s :=
    ledRingOps_eq_default cfg env s h
  obtain ⟨b2, h2, hl2, hg⟩ := applyOps_fillOps black 96 0 b (by omega)
  have hb2 : b2 = List.replicate 96 black := by
    apply List.ext_getElem?
    intro n
    rw [hg n, List.getElem?_replicate]
    by_cases hn : n < 96
    · rw [if_pos ⟨Nat.zero_le n, by omega⟩, if_pos hn]
    · rw [if_neg (by omega), if_neg hn]
      exact List.getElem?_eq_none (by omega)
  have happ2 : applyOps (defaultOps cfg env s).1 b = some b2 := h2
  simp only [frame, hops, happ2]
  rw [hb2]
  rfl

/-- Witness for `render_unknown_mode_black` at mode 27. -/
theorem render_unknown_mode_black_witness :
    frame { currentMode := 27, ringBrightness := 50 } env0 (ringInit 0 0) buf0
      = some (List.replicate 96 black, ringInit 0 0, 50) :=
  render_unknown_mode_black _ env0 (ringInit 0 0) buf0 (Or.inr (by decide))
    (by simp [buf0])

/-- Every branch other than mode 4 leaves `wipeExp` and `wipeColor`
untouched. -/
theorem ledRingOps_wipe_const (cfg : Config) (env : Env) (s : RingState)
    (h : cfg.currentMode ≠ 4) :
    (ledRingOps cfg env s).2.1.wipeColor = s.wipeColor ∧
      (ledRingOps cfg env s).2.1.wipeExp = s.wipeExp := by
  by_cases h0 : cfg.currentMode = 0
  · simp only [ledRingOps_eq0 cfg env s h0]; exact ⟨rfl, rfl⟩
  by_cases h1 : cfg.currentMode = 1
  · simp only [ledRingOps_eq1 cfg env s h1]; exact ⟨rfl, rfl⟩
  by_cases h2 : cfg.currentMode = 2
  · simp only [ledRingOps_eq2 cfg env s h2]; exact ⟨rfl, rfl⟩
  by_cases h3 : cfg.currentMode = 3
  · simp only [ledRingOps_eq3 cfg env s h3]; exact ⟨rfl, rfl⟩
  by_cases h5 : cfg.currentMode = 5
  · simp only [ledRingOps_eq5 cfg env s h5]; exact ⟨rfl, rfl⟩
  by_cases h6 : cfg.currentMode = 6
  · simp only [ledRingOps_eq6 cfg env s h6]; exact ⟨rfl, rfl⟩
  by_cases h7 : cfg.currentMode = 7
  · simp only [ledRingOps_eq7 cfg env s h7]; exact ⟨rfl, rfl⟩
  by_cases h8 : cfg.currentMode = 8
  · simp only [ledRingOps_eq8 cfg env s h8]; exact ⟨rfl, rfl⟩
  by_cases h9 : cfg.currentMode = 9
  · simp only [ledRingOps_eq9 cfg env s h9]; exact ⟨rfl, rfl⟩
  by_cases h10 : cfg.currentMode = 10
  · simp only [ledRingOps_eq10 cfg env s h10]
    dsimp only [mode10Ops]
    split_ifs <;> exact ⟨rfl, rfl⟩
  by_cases h11 : cfg.currentMode = 11
  · simp only [ledRingOps_eq11 cfg env s h11]; exact ⟨rfl, rfl⟩
  by_cases h12 : cfg.currentMode = 12
  · simp only [ledRingOps_eq12 cfg env s h12]; exact ⟨rfl, rfl⟩
  by_cases h13 : cfg.currentMode = 13
  · simp only [ledRingOps_eq13 cfg env s h13]; exact ⟨rfl, rfl⟩
  by_cases h14 : cfg.currentMode = 14
  · simp only [ledRingOps_eq14 cfg env s h14]; exact ⟨rfl, rfl⟩
  by_cases h15 : cfg.currentMode = 15
  · simp only [ledRingOps_eq15 cfg env s h15]; exact ⟨rfl, rfl⟩
  by_cases h16 : cfg.currentMode = 16
  · simp only [ledRingOps_eq16 cfg env s h16]; exact ⟨rfl, rfl⟩
  by_cases h17 : cfg.currentMode = 17
  · simp only [ledRingOps_eq17 cfg env s h17]; exact ⟨rfl, rfl⟩
  by_cases h18 : cfg.currentMode = 18
  · simp only [ledRingOps_eq18 cfg env s h18]; exact ⟨rfl, rfl⟩
  by_cases h19 : cfg.currentMode = 19
  · simp only [ledRingOps_eq19 cfg env s h19]; exact ⟨rfl, rfl⟩
  by_cases h20 : cfg.currentMode = 20
  · simp only [ledRingOps_eq20 cfg env s h20]; exact ⟨rfl, rfl⟩
  by_cases h21 : cfg.currentMode = 21
  · simp only [ledRingOps_eq21 cfg env s h21]; exact ⟨rfl, rfl⟩
  by_cases h22 : cfg.currentMode = 22
  · simp only [ledRingOps_eq22 cfg env s h22]
    dsimp only [mode22Ops]
    split_ifs <;> exact ⟨rfl, rfl⟩
  by_cases h23 : cfg.currentMode = 23
  · simp only [ledRingOps_eq23 cfg env s h23]; exact ⟨rfl, rfl⟩
  by_cases h24 : cfg.currentMode = 24
  · simp only [ledRingOps_eq24 cfg env s h24]; exact ⟨rfl, rfl⟩
  by_cases h25 : cfg.currentMode = 25
  · simp only [ledRingOps_eq25 cfg env s h25]; exact ⟨rfl, rfl⟩
  by_cases h26 : cfg.currentMode = 26
  · simp only [ledRingOps_eq26 cfg env s h26]; exact ⟨rfl, rfl⟩
  simp only [ledRingOps_eq_default cfg env s (by omega)]
  exact ⟨rfl, rfl⟩

/-- The mode-4 branch: the flag is set, and using the effective expansion
counter (0 on the initialization frame), the color toggles with the counter
resetting to 0 exactly when the incremented counter passes 24, and is
otherwise unchanged with the counter incremented. -/
theorem mode4_wipe_step (cfg : Config) (env : Env) (s : RingState)
    (h : cfg.currentMode = 4) :
    (ledRingOps cfg env s).2.1.sideWipeInitialized = true ∧
    (if (if s.sideWipeInitialized then s.wipeExp else 0) + 1 > 24 then
       (ledRingOps cfg env s).2.1.wipeColor
           = (if s.wipeColor = blue then red else blue) ∧
         (ledRingOps cfg env s).2.1.wipeExp = 0
     else
       (ledRingOps cfg env s).2.1.wipeColor = s.wipeColor ∧
         (ledRingOps cfg env s).2.1.wipeExp
           = (if s.sideWipeInitialized then s.wipeExp else 0) + 1) := by
  simp only [ledRingOps_eq4 cfg env s h]
  dsimp only [mode4Ops]
  split_ifs <;> exact ⟨rfl, rfl, rfl⟩

/-- C10: side-wipe color invariant — the wipe color starts Blue, is Blue or
Red in every reachable state, is untouched by every frame of a mode other
than 4, and on a mode-4 frame toggles between Blue and Red (with the
expansion counter reset to 0) exactly when the incremented expansion
counter exceeds 24, being unchanged otherwise. -/
theorem side_wipe_color_invariant :
    (∀ c1 c2 : Int, (ringInit c1 c2).wipeColor = blue) ∧
    (∀ cfg s b, Reach cfg s b → s.wipeColor = blue ∨ s.wipeColor = red) ∧
    (∀ cfg env s b out, frame cfg env s b = some out → cfg.currentMode ≠ 4 →
       out.2.1.wipeColor = s.wipeColor ∧ out.2.1.wipeExp = s.wipeExp) ∧
    (∀ cfg env s b out, frame cfg env s b = some out → cfg.currentMode = 4 →
       (if (if s.sideWipeInitialized then s.wipeExp else 0) + 1 > 24 then
          out.2.1.wipeColor = (if s.wipeColor = blue then red else blue) ∧
            out.2.1.wipeExp = 0
        else
          out.2.1.wipeColor = s.wipeColor ∧
            out.2.1.wipeExp = (if s.sideWipeInitialized then s.wipeExp else 0) + 1)) := by
  refine ⟨fun c1 c2 => rfl, fun cfg s b h => (reach_inv h).1.wipeC,
    fun cfg env s b out hf h => ?_, fun cfg env s b out hf h => ?_⟩
  · rw [(frame_inv hf).1]
    exact ledRingOps_wipe_const cfg env s h
  · rw [(frame_inv hf).1]
    exact (mode4_wipe_step cfg env s h).2

/-- Witness for `side_wipe_color_invariant` at the initial state. -/
theorem side_wipe_color_invariant_witness :
    (ringInit 0 0).wipeColor = blue ∨ (ringInit 0 0).wipeColor = red :=
  side_wipe_color_invariant.2.1 cfg0 (ringInit 0 0) buf0
    (Reach.init 0 0 (by decide) (by decide) (by decide) (by decide))

/-- Unfolding the first loop iteration of `fill_ring_with_exact_rainbow`:
the first pixel gets the starting hue (`error` has only reached 1/3). -/
theorem rainbowPairs_head (h : Nat) :
    rainbowPairs 0 h 0 48 = (0, h % 256) :: rainbowPairs 1 (h + 5) 699051 47 := by
  show rainbowPairs 0 h 0 (47 + 1) = _
  rw [rainbowPairs]
  norm_num

/-- Pixel 0 of the hue distribution is the starting hue itself (mod 256). -/
theorem rainbowHues_head (x : Nat) : (rainbowHues x).getD 0 0 = x % 256 := by
  unfold rainbowHues
  rw [rainbowPairs_head]
  rfl

/-- One mode-0 frame: both rings are rainbow-filled, both hue counters
advance by one (mod 256), pixel 0 holds `CHSV(startHueRing1, 255, 255)`,
and the delay is 10 ms. -/
theorem frame_mode0 (cfg : Config) (env : Env) (s : RingState) (b : Buffer)
    (hm : cfg.currentMode = 0) (hb : b.length = 96) :
    ∃ b2 s2, frame cfg env s b = some (b2, s2, 10) ∧
      s2.startHueRing1 = (s.startHueRing1 + 1) % 256 ∧
      b2.length = 96 ∧ b2[0]? = some (.hsv (s.startHueRing1 % 256) 255 255) := by
  have hops : ledRingOps cfg env s = mode0Ops cfg env s := ledRingOps_eq0 cfg env s hm
  have hsafe : ∀ op ∈ (ledRingOps cfg env s).1, opSafe op := by
    rw [hops]
    exact mode0_safe cfg env s
  obtain ⟨b2, happ0, hl⟩ := applyOps_some hb hsafe
  have htail : ∀ op ∈ (rainbowPairs 1 (s.startHueRing1 + 5) 699051 47).map
      (fun p => LedOp.set ((0 + p.1 : Nat) : Int) (Color.hsv p.2 255 255)),
      opAvoids 0 op := by
    intro op hop
    simp only [List.mem_map] at hop
    obtain ⟨p, hp, rfl⟩ := hop
    have := rainbowPairs_fst 47 1 _ _ p hp
    dsimp only [opAvoids]
    omega
  have hring2 : ∀ op ∈ rainbowOps 48 s.startHueRing2, opAvoids 0 op := by
    intro op hop
    simp only [rainbowOps, List.mem_map] at hop
    obtain ⟨p, hp, rfl⟩ := hop
    have := rainbowPairs_fst 48 0 _ _ p hp
    dsimp only [opAvoids]
    omega
  refine ⟨b2, { s with startHueRing1 := (s.startHueRing1 + 1) % 256, startHueRing2 := (s.startHueRing2 + 1) % 256 }, ?_, rfl, hl, ?_⟩
  · have happ2 : applyOps (mode0Ops cfg env s).1 b = some b2 := by
      rw [← hops]
      exact happ0
    simp only [frame, hops, happ2]
    rfl
  · have happ : applyOps (mode0Ops cfg env s).1 b = some b2 := by
      rw [← hops]
      exact happ0
    dsimp only [mode0Ops] at happ
    rw [applyOps_append] at happ
    cases h1 : applyOps (rainbowOps 0 s.startHueRing1) b with
    | none => rw [h1] at happ; cases happ
    | some b1 =>
        rw [h1, Option.some_bind] at happ
        have hh : rainbowOps 0 s.startHueRing1
            = LedOp.set ((0 + 0 : Nat) : Int) (Color.hsv (s.startHueRing1 % 256) 255 255)
              :: (rainbowPairs 1 (s.startHueRing1 + 5) 699051 47).map
                   (fun p => LedOp.set ((0 + p.1 : Nat) : Int) (Color.hsv p.2 255 255)) := by
          unfold rainbowOps
          rw [rainbowPairs_head, List.map_cons]
        rw [hh] at h1
        have hset : applyOp b (LedOp.set ((0 + 0 : Nat) : Int)
            (Color.hsv (s.startHueRing1 % 256) 255 255))
            = some (b.set 0 (Color.hsv (s.startHueRing1 % 256) 255 255)) := by
          simp only [applyOp, hb]
          rw [if_pos ⟨by norm_num, by norm_num⟩]
          rfl
        rw [applyOps_cons, hset] at h1
        dsimp only at h1
        have h0b1 : b1[0]? = some (Color.hsv (s.startHueRing1 % 256) 255 255) := by
          rw [applyOps_getElem?_of_avoids h1 htail]
          exact List.getElem?_set_eq_of_lt _ (by omega)
        rw [applyOps_getElem?_of_avoids happ hring2, h0b1]

/-- `n` consecutive loop iterations, tracking the statics and the buffer. -/
def iterFrames (cfg : Config) (env : Env) : Nat → RingState → Buffer →
    Option (RingState × Buffer)
  | 0, s, b => some (s, b)
  | n + 1, s, b =>
      match frame cfg env s b with
      | some (b2, s2, _) => iterFrames cfg env n s2 b2
      | none => none

theorem iterFrames_mode0 (cfg : Config) (env : Env) (hm : cfg.currentMode = 0) :
    ∀ (n : Nat) (s : RingState) (b : Buffer), b.length = 96 → s.startHueRing1 < 256 →
    ∃ s2 b2, iterFrames cfg env n s b = some (s2, b2) ∧
      s2.startHueRing1 = (s.startHueRing1 + n) % 256 ∧ b2.length = 96 := by
  intro n
  induction n with
  | zero =>
      intro s b hb hlt
      exact ⟨s, b, rfl, by omega, hb⟩
  | succ n ih =>
      intro s b hb hlt
      obtain ⟨b2, s2, hf, hs2, hl2, _⟩ := frame_mode0 cfg env s b hm hb
      obtain ⟨s3, b3, hiter, hs3, hl3⟩ := ih s2 b2 hl2 (by omega)
      refine ⟨s3, b3, ?_, by omega, hl3⟩
      simp only [iterFrames, hf]
      exact hiter

/-- C7: starting in mode 0 with `startHueRing1 = h0`, after exactly 48
frames the counter equals `(h0 + 48) % 256`, and the frame rendered at that
state assigns Ring A pixel 0 the hue that `fill_ring_with_exact_rainbow`
computes for starting hue `(h0 + 48) % 256` (its pixel-0 hue,
`(rainbowHues ((h0 + 48) % 256)).getD 0 0`). -/
theorem rainbow_scenario (h0 : Nat) (env : Env) (s : RingState) (b : Buffer)
    (hh : s.startHueRing1 = h0) (hlt : h0 < 256) (hb : b.length = 96) :
    ∃ s2 b2, iterFrames cfg0 env 48 s b = some (s2, b2) ∧
      s2.startHueRing1 = (h0 + 48) % 256 ∧
      ∃ b3 s3 d, frame cfg0 env s2 b2 = some (b3, s3, d) ∧
        b3[0]? = some (.hsv ((rainbowHues ((h0 + 48) % 256)).getD 0 0) 255 255) := by
  subst hh
  obtain ⟨s2, b2, hiter, hs2, hb2⟩ := iterFrames_mode0 cfg0 env rfl 48 s b hb hlt
  obtain ⟨b3, s3, hf3, _, _, hp3⟩ := frame_mode0 cfg0 env s2 b2 rfl hb2
  refine ⟨s2, b2, hiter, hs2, b3, s3, _, hf3, ?_⟩
  rw [hp3, rainbowHues_head, hs2]

/-- Witness for `rainbow_scenario` starting at hue 0 from the initial
state. -/
theorem rainbow_scenario_witness :
    ∃ s2 b2, iterFrames cfg0 env0 48 (ringInit 0 0) buf0 = some (s2, b2) ∧
      s2.startHueRing1 = (0 + 48) % 256 ∧
      ∃ b3 s3 d, frame cfg0 env0 s2 b2 = some (b3, s3, d) ∧
        b3[0]? = some (.hsv ((rainbowHues ((0 + 48) % 256)).getD 0 0) 255 255) :=
  rainbow_scenario 0 env0 (ringInit 0 0) buf0 rfl (by norm_num) (by simp [buf0])

/-- `/set?mode=4` applied to the boot config: switch to mode 4. -/
def cfgTo4 : Config := handleSet (some 4) none cfg0

/-- `/set?mode=0` next: switch away to mode 0. -/
def cfgTo0 : Config := handleSet (some 0) none cfgTo4

/-- `/set?mode=4` again: switch back to mode 4. -/
def cfgBack4 : Config := handleSet (some 4) none cfgTo0

/-- One rendered frame under a given config, chained on `(buffer, statics)`
pairs (the scheduler's per-iteration behaviour with the fixed environment
`env0`). -/
def sysFrame (cfg : Config) (x : Option (Buffer × RingState)) :
    Option (Buffer × RingState) :=
  match x with
  | some (b, s) => (frame cfg env0 s b).map fun o => (o.1, o.2.1)
  | none => none

/-- The concrete scenario of the claim: boot, switch to mode 4, render one
frame, switch to mode 0, render one frame, switch back to mode 4, render
one frame. -/
def trace1 : Option (Buffer × RingState) := sysFrame cfgTo4 (some (buf0, ringInit 0 0))

def trace2 : Option (Buffer × RingState) := sysFrame cfgTo0 trace1

def trace3 : Option (Buffer × RingState) := sysFrame cfgBack4 trace2

set_option maxRecDepth 8000

/-- C1 (evaluation of the code at the failing scenario): after entering
mode 4 and rendering one frame, `sideWipeInitialized = true` and
`wipeExp = 1`; switching to mode 0 and rendering leaves the flag `true`
(the reset at lines 147-149 sits before the `while (1)` loop and never runs
again), and the resulting state is reachable with `currentMode = 0` —
refuting the claimed invariant; switching back to mode 4 then renders
withOUT the one-time clear: the flag is still `true` and the wipe resumes
mid-cycle at `wipeExp = 2` instead of restarting at 0. -/
theorem side_wipe_reset_lost :
    cfgTo4.currentMode = 4 ∧ cfgTo0.currentMode = 0 ∧ cfgBack4.currentMode = 4 ∧
    trace1.map (fun x => (x.2.sideWipeInitialized, x.2.wipeExp)) = some (true, 1) ∧
    trace2.map (fun x => (x.2.sideWipeInitialized, x.2.wipeExp)) = some (true, 1) ∧
    trace3.map (fun x => (x.2.sideWipeInitialized, x.2.wipeExp)) = some (true, 2) ∧
    (∀ b s, trace2 = some (b, s) → Reach cfgTo0 s b) := by
  refine ⟨by decide, by decide, by decide, by decide, by decide, by decide, ?_⟩
  intro b s h
  cases h1 : frame cfgTo4 env0 (ringInit 0 0) buf0 with
  | none => simp [trace2, trace1, sysFrame, h1] at h
  | some o1 =>
      cases h2 : frame cfgTo0 env0 o1.2.1 o1.1 with
      | none => simp [trace2, trace1, sysFrame, h1, h2] at h
      | some o2 =>
          have hbs : b = o2.1 ∧ s = o2.2.1 := by
            simp [trace2, trace1, sysFrame, h1, h2] at h
            exact ⟨h.1.symm, h.2.symm⟩
          obtain ⟨rfl, rfl⟩ := hbs
          exact Reach.step (Reach.web (some 0) none (Reach.step (Reach.web (some 4) none
            (Reach.init 0 0 (by decide) (by decide) (by decide) (by decide)))
            env0_wf h1)) env0_wf h2

end LSG
